import Mathlib

/-!
Verification of the libdect NWK-layer core (S-format codec, CC and MM
entities) against its natural-language specification.

The definitions below are a shallow embedding of the C sources:
  * `src/src/mm.c`       - MM entity, S-format message codec, IE catalog
  * `src/unnamed/part_002` - CC entity
Wire bytes are modelled as `Nat` (values < 256), buffers as `List Nat`,
fallible C functions as `Except` and pointer-walked message structs as a
slot map `Nat → Slot`.  Numeric identifiers that live in headers not part
of the sources (s_fmt.h) are modelled from the spec where it pins them
(fixed-length framing masks) and from ETSI EN 300 175-5 identifier values
otherwise; no claim depends on the particular numeric choice.
-/

namespace Libdect

/-- Handle role, `enum dect_mode` (libdect.h): fixed part or portable part. -/
inductive DectMode where
  | DECT_MODE_FP
  | DECT_MODE_PP
deriving DecidableEq, Repr

/-- `struct dect_handle`, restricted to the field the codec consults. -/
structure DectHandle where
  mode : DectMode
deriving DecidableEq, Repr

/-- `enum dect_sfmt_ie_status`: per-direction policy of a descriptor entry. -/
inductive IEStatus where
  | IE_NONE
  | IE_OPTIONAL
  | IE_MANDATORY
deriving DecidableEq, Repr

/-- One entry of a message descriptor table (`struct dect_sfmt_ie_desc`).
The C table is terminated by an entry with the `DECT_SFMT_IE_END` flag; we
model a descriptor as a `List SfmtIEDesc` whose end plays the END entry. -/
structure SfmtIEDesc where
  type : Nat
  fp_pp : IEStatus
  pp_fp : IEStatus
  repeatFlag : Bool
deriving DecidableEq, Repr

/-- Error codes of `enum dect_sfmt_error` (negative values in C; the exact
numbers live in the missing header, callers only test them for being
negative or compare them).  `parseError` stands for the bare `-1` returns.
`modelUndefined` marks behaviour that in C is a raw-memory reinterpretation
or a `dect_assert` abort; no theorem below exercises it. -/
inductive SfmtError where
  | parseError
  | mandatoryIeMissing
  | mandatoryIeError
  | invalidIe
  | modelUndefined
deriving DecidableEq, Repr

/- Fixed-length IE framing (spec section 4.1: high bit set, 3-bit identifier,
4-bit in-line value; masks from the missing s_fmt.h, forced by the spec). -/

def DECT_SFMT_IE_FIXED_LEN : Nat := 0x80

def DECT_SFMT_IE_FIXED_ID_MASK : Nat := 0x70

def DECT_SFMT_IE_FIXED_VAL_MASK : Nat := 0x0f

/- Single-octet fixed IE identifiers (value = 0x80 | 3-bit id << 4). -/

def DECT_IE_EXT_PREFIX : Nat := 0xa0

def DECT_IE_REPEAT_INDICATOR : Nat := 0xd0

def DECT_IE_DOUBLE_OCTET_ELEMENT : Nat := 0xe0

/- Fixed single-octet IEs of the EXT_PREFIX family. -/

def DECT_IE_SENDING_COMPLETE : Nat := 0xa1

def DECT_IE_DELIMITER_REQUEST : Nat := 0xa2

def DECT_IE_USE_TPUI : Nat := 0xa3

/- Double-octet fixed IEs (DOUBLE_OCTET_ELEMENT family). -/

def DECT_IE_BASIC_SERVICE : Nat := 0xe0

def DECT_IE_RELEASE_REASON : Nat := 0xe2

def DECT_IE_SIGNAL : Nat := 0xe4

def DECT_IE_TIMER_RESTART : Nat := 0xe5

def DECT_IE_TEST_HOOK_CONTROL : Nat := 0xe6

def DECT_IE_SINGLE_DISPLAY : Nat := 0xe8

def DECT_IE_SINGLE_KEYPAD : Nat := 0xe9

/- Variable-length IE identifiers (high bit clear), ETSI EN 300 175-5. -/

def DECT_IE_INFO_TYPE : Nat := 0x01

def DECT_IE_IDENTITY_TYPE : Nat := 0x02

def DECT_IE_PORTABLE_IDENTITY : Nat := 0x05

def DECT_IE_FIXED_IDENTITY : Nat := 0x06

def DECT_IE_LOCATION_AREA : Nat := 0x07

def DECT_IE_NWK_ASSIGNED_IDENTITY : Nat := 0x09

def DECT_IE_AUTH_TYPE : Nat := 0x0a

def DECT_IE_ALLOCATION_TYPE : Nat := 0x0b

def DECT_IE_RAND : Nat := 0x0c

def DECT_IE_RES : Nat := 0x0d

def DECT_IE_RS : Nat := 0x0e

def DECT_IE_IWU_ATTRIBUTES : Nat := 0x12

def DECT_IE_CALL_ATTRIBUTES : Nat := 0x13

def DECT_IE_SERVICE_CHANGE_INFO : Nat := 0x16

def DECT_IE_CONNECTION_ATTRIBUTES : Nat := 0x17

def DECT_IE_CIPHER_INFO : Nat := 0x19

def DECT_IE_CONNECTION_IDENTITY : Nat := 0x1b

def DECT_IE_FACILITY : Nat := 0x1c

def DECT_IE_PROGRESS_INDICATOR : Nat := 0x1e

def DECT_IE_MULTI_DISPLAY : Nat := 0x28

def DECT_IE_MULTI_KEYPAD : Nat := 0x2c

def DECT_IE_FEATURE_ACTIVATE : Nat := 0x38

def DECT_IE_FEATURE_INDICATE : Nat := 0x39

def DECT_IE_NETWORK_PARAMETER : Nat := 0x41

def DECT_IE_EXT_HO_INDICATOR : Nat := 0x42

def DECT_IE_ZAP_FIELD : Nat := 0x52

def DECT_IE_SERVICE_CLASS : Nat := 0x54

def DECT_IE_KEY : Nat := 0x56

def DECT_IE_REJECT_REASON : Nat := 0x60

def DECT_IE_SETUP_CAPABILITY : Nat := 0x62

def DECT_IE_TERMINAL_CAPABILITY : Nat := 0x63

def DECT_IE_END_TO_END_COMPATIBILITY : Nat := 0x64

def DECT_IE_RATE_PARAMETERS : Nat := 0x65

def DECT_IE_TRANSIT_DELAY : Nat := 0x66

def DECT_IE_WINDOW_SIZE : Nat := 0x67

def DECT_IE_CALLING_PARTY_NUMBER : Nat := 0x6c

def DECT_IE_CALLING_PARTY_NAME : Nat := 0x6d

def DECT_IE_CALLED_PARTY_NUMBER : Nat := 0x70

def DECT_IE_CALLED_PARTY_SUBADDR : Nat := 0x71

def DECT_IE_DURATION : Nat := 0x72

def DECT_IE_SEGMENTED_INFO : Nat := 0x75

def DECT_IE_IWU_TO_IWU : Nat := 0x77

def DECT_IE_MODEL_IDENTIFIER : Nat := 0x78

def DECT_IE_IWU_PACKET : Nat := 0x7a

def DECT_IE_ESCAPE_TO_PROPRIETARY : Nat := 0x7b

def DECT_IE_CODEC_LIST : Nat := 0x7c

def DECT_IE_CALL_INFORMATION : Nat := 0x7e

/-- Group-end bit used inside variable-length IE payloads. -/
def DECT_OCTET_GROUP_END : Nat := 0x80

/-- `struct dect_sfmt_ie`: a located wire IE.  `data` is the view of the
message buffer starting at the IE (`ie->data = mb->data`); `len` is the
total wire length of the IE including its header. -/
structure SfmtIE where
  id : Nat
  len : Nat
  data : List Nat
deriving DecidableEq, Repr

/-- Octet access `src->data[i]` on the buffer view. -/
def SfmtIE.at (ie : SfmtIE) (i : Nat) : Nat := ie.data.getD i 0

/--
`dect_parse_sfmt_ie_header` (mm.c lines 3126-3160): parse one S-format IE
header off the front of the message buffer.  Returns the identifier, total
wire length and buffer view, or an error when the buffer is truncated.
-/
def dect_parse_sfmt_ie_header (mb : List Nat) : Except SfmtError SfmtIE :=
  match mb with
  | [] => .error .parseError
  | b0 :: rest =>
    let id0 := b0 &&& DECT_SFMT_IE_FIXED_LEN
    if id0 &&& DECT_SFMT_IE_FIXED_LEN ≠ 0 then
      let id1 := id0 ||| (b0 &&& DECT_SFMT_IE_FIXED_ID_MASK)
      let val := b0 &&& DECT_SFMT_IE_FIXED_VAL_MASK
      if id1 ≠ DECT_IE_DOUBLE_OCTET_ELEMENT then
        let id2 := if id1 = DECT_IE_EXT_PREFIX then id1 ||| val else id1
        .ok { id := id2, len := 1, data := mb }
      else
        if mb.length < 2 then .error .parseError
        else .ok { id := id1 ||| val, len := 2, data := mb }
    else
      if mb.length < 2 ∨ mb.length < 2 + (rest.getD 0 0) then .error .parseError
      else .ok { id := b0, len := (rest.getD 0 0) + 2, data := mb }

/-- In-memory values of the information elements whose codec handlers are
embedded here (the corresponding `struct dect_ie_*` types).  Display and
keypad carry their content bytes; the struct `len` field is the list
length. -/
inductive IEVal where
  | repeatIndicator (ty : Nat)
  | basicService (cls : Nat) (service : Nat)
  | display (info : List Nat)
  | keypad (info : List Nat)
  | releaseReason (reason : Nat)
  | rejectReason (reason : Nat)
  | signal (code : Nat)
  | timerRestart (code : Nat)
  | locationArea (ty : Nat) (level : Nat)
  | infoType (types : List Nat)
  | authRes (value : Nat)
  | progressIndicator (location : Nat) (progress : Nat)
deriving DecidableEq, Repr

/-- One slot of a message struct (`struct dect_msg_common`-backed storage).
Non-repeat members are IE pointers (`vacant` = NULL); a repeat group is an
in-line `struct dect_ie_list` holding the list type octet and, when built
by the application, its elements.  `uninit` is stack garbage the parser has
not yet initialised. -/
inductive Slot where
  | uninit
  | vacant
  | ie (v : IEVal)
  | ielist (ty : Option Nat) (elems : List IEVal)
deriving DecidableEq, Repr

/-- List ordering policies carried by a REPEAT-INDICATOR
(`enum dect_ie_list_types`). -/
def DECT_IE_LIST_NORMAL : Nat := 0x1

def DECT_IE_LIST_PRIORITIZED : Nat := 0x2

/-- Capacity of `dect_ie_display.info` and `dect_ie_keypad.info`.  The
struct layout lives in a header that is not part of the sources; the value
only bounds the accepted multi-display/keypad payloads. -/
def DECT_IE_DISPLAY_INFO_SIZE : Nat := 64

/-- Capacity of `dect_ie_info_type.type` (header not under src/). -/
def DECT_IE_INFO_TYPE_SIZE : Nat := 8

/-- Timer restart codes accepted by `dect_sfmt_parse_timer_restart`
(header not under src/; values per ETSI EN 300 175-5 section 7.6.9). -/
def DECT_TIMER_RESTART : Nat := 0x80

def DECT_TIMER_STOP : Nat := 0x81

/-- The scratch output region a build handler writes into
(`struct dect_sfmt_ie` used as destination: `dst->data`, `dst->len`).
`dect_build_sfmt_ie` points it at the free tail of the message buffer; we
model that region as starting zeroed and byte stores as modulo-256. -/
structure BuildBuf where
  data : Nat → Nat
  len : Nat

def BuildBuf.empty : BuildBuf := ⟨fun _ => 0, 0⟩

/-- Nat store `dst->data[i] = v`. -/
def BuildBuf.set (b : BuildBuf) (i v : Nat) : BuildBuf :=
  ⟨fun j => if j = i then v % 256 else b.data j, b.len⟩

/-- Nat or-store `dst->data[i] |= v`. -/
def BuildBuf.orAt (b : BuildBuf) (i v : Nat) : BuildBuf :=
  b.set i (b.data i ||| v)

def BuildBuf.setLen (b : BuildBuf) (n : Nat) : BuildBuf := ⟨b.data, n⟩

/-- The bytes an IE build produced: the first `len` octets of the region
(`mb->len += dst->len` appends exactly these to the message). -/
def BuildBuf.emit (b : BuildBuf) : List Nat := (List.range b.len).map b.data

/- Individual IE codec handlers, translated from mm.c.  A parse handler
receives the located wire IE and the storage slot it writes into
(`struct dect_ie_common **dst`); a build handler fills a fresh output
region.  Handlers for IE types outside the verified subset are not
modelled; no theorem below evaluates them. -/

/-- `dect_sfmt_parse_repeat_indicator` (mm.c 592-607): store the list type
from the in-line value; only NORMAL and PRIORITIZED are accepted.  The C
handler writes through the pointer into the in-line `dect_ie_list`. -/
def dect_sfmt_parse_repeat_indicator (src : SfmtIE) (slot : Slot) :
    Except SfmtError Slot :=
  let ty := src.at 0 &&& DECT_SFMT_IE_FIXED_VAL_MASK
  if ty = DECT_IE_LIST_NORMAL ∨ ty = DECT_IE_LIST_PRIORITIZED then
    match slot with
    | .ielist _ elems => .ok (.ielist (some ty) elems)
    | _ => .ok (.ielist (some ty) [])
  else .error .parseError

/-- `dect_sfmt_build_repeat_indicator` (mm.c 609-616): emit the list type
octet (the header builder ors the identifier in). -/
def dect_sfmt_build_repeat_indicator (ie : IEVal) : Except SfmtError BuildBuf :=
  match ie with
  | .repeatIndicator ty => .ok (BuildBuf.empty.set 0 ty)
  | _ => .error .modelUndefined

def DECT_BASIC_SERVICE_CALL_CLASS_SHIFT : Nat := 4

def DECT_BASIC_SERVICE_SERVICE_MASK : Nat := 0x0f

/-- `dect_sfmt_parse_basic_service` (mm.c 668-677). -/
def dect_sfmt_parse_basic_service (src : SfmtIE) : Except SfmtError IEVal :=
  .ok (.basicService (src.at 1 >>> DECT_BASIC_SERVICE_CALL_CLASS_SHIFT)
        (src.at 1 &&& DECT_BASIC_SERVICE_SERVICE_MASK))

/-- `dect_sfmt_build_basic_service` (mm.c 679-687). -/
def dect_sfmt_build_basic_service (ie : IEVal) : Except SfmtError BuildBuf :=
  match ie with
  | .basicService cls service =>
    .ok (BuildBuf.empty.set 1 ((cls <<< DECT_BASIC_SERVICE_CALL_CLASS_SHIFT) ||| service))
  | _ => .error .modelUndefined

/-- `dect_sfmt_parse_single_display` (mm.c 696-705): one content octet. -/
def dect_sfmt_parse_single_display (src : SfmtIE) : Except SfmtError IEVal :=
  .ok (.display [src.at 1])

/-- `dect_sfmt_build_single_display` (mm.c 707-714). -/
def dect_sfmt_build_single_display (ie : IEVal) : Except SfmtError BuildBuf :=
  match ie with
  | .display info => .ok (BuildBuf.empty.set 1 (info.getD 0 0))
  | _ => .error .modelUndefined

/-- `dect_sfmt_parse_single_keypad` (mm.c 723-732). -/
def dect_sfmt_parse_single_keypad (src : SfmtIE) : Except SfmtError IEVal :=
  .ok (.keypad [src.at 1])

/-- `dect_sfmt_build_single_keypad` (mm.c 734-741). -/
def dect_sfmt_build_single_keypad (ie : IEVal) : Except SfmtError BuildBuf :=
  match ie with
  | .keypad info => .ok (BuildBuf.empty.set 1 (info.getD 0 0))
  | _ => .error .modelUndefined

/-- `dect_sfmt_parse_multi_display` (mm.c 1672-1683): copy the payload,
rejecting payloads beyond the struct capacity. -/
def dect_sfmt_parse_multi_display (src : SfmtIE) : Except SfmtError IEVal :=
  let len := src.len - 2
  if len > DECT_IE_DISPLAY_INFO_SIZE then .error .parseError
  else .ok (.display ((src.data.drop 2).take len))

/-- `dect_sfmt_build_multi_display` (mm.c 1685-1693). -/
def dect_sfmt_build_multi_display (ie : IEVal) : Except SfmtError BuildBuf :=
  match ie with
  | .display info =>
    .ok { data := fun j => if 2 ≤ j ∧ j < 2 + info.length then info.getD (j - 2) 0 % 256 else 0,
          len := info.length + 2 }
  | _ => .error .modelUndefined

/-- `dect_sfmt_parse_multi_keypad` (mm.c 1695-1706). -/
def dect_sfmt_parse_multi_keypad (src : SfmtIE) : Except SfmtError IEVal :=
  let len := src.len - 2
  if len > DECT_IE_DISPLAY_INFO_SIZE then .error .parseError
  else .ok (.keypad ((src.data.drop 2).take len))

/-- `dect_sfmt_build_multi_keypad` (mm.c 1708-1716). -/
def dect_sfmt_build_multi_keypad (ie : IEVal) : Except SfmtError BuildBuf :=
  match ie with
  | .keypad info =>
    .ok { data := fun j => if 2 ≤ j ∧ j < 2 + info.length then info.getD (j - 2) 0 % 256 else 0,
          len := info.length + 2 }
  | _ => .error .modelUndefined

/-- `dect_sfmt_parse_release_reason` (mm.c 937-945). -/
def dect_sfmt_parse_release_reason (src : SfmtIE) : Except SfmtError IEVal :=
  .ok (.releaseReason (src.at 1))

/-- `dect_sfmt_build_release_reason` (mm.c 947-954). -/
def dect_sfmt_build_release_reason (ie : IEVal) : Except SfmtError BuildBuf :=
  match ie with
  | .releaseReason reason => .ok (BuildBuf.empty.set 1 reason)
  | _ => .error .modelUndefined

/-- `dect_sfmt_parse_reject_reason` (mm.c 1871-1879). -/
def dect_sfmt_parse_reject_reason (src : SfmtIE) : Except SfmtError IEVal :=
  .ok (.rejectReason (src.at 2))

/-- `dect_sfmt_build_reject_reason` (mm.c 1881-1889). -/
def dect_sfmt_build_reject_reason (ie : IEVal) : Except SfmtError BuildBuf :=
  match ie with
  | .rejectReason reason => .ok ((BuildBuf.empty.set 2 reason).setLen 3)
  | _ => .error .modelUndefined

/-- `dect_sfmt_parse_signal` (mm.c 988-996). -/
def dect_sfmt_parse_signal (src : SfmtIE) : Except SfmtError IEVal :=
  .ok (.signal (src.at 1))

/-- `dect_sfmt_build_signal` (mm.c 998-1005). -/
def dect_sfmt_build_signal (ie : IEVal) : Except SfmtError BuildBuf :=
  match ie with
  | .signal code => .ok (BuildBuf.empty.set 1 code)
  | _ => .error .modelUndefined

/-- `dect_sfmt_parse_timer_restart` (mm.c 1007-1021): only the two defined
codes are accepted.  The catalog has no build handler for this IE. -/
def dect_sfmt_parse_timer_restart (src : SfmtIE) : Except SfmtError IEVal :=
  let code := src.at 1
  if code = DECT_TIMER_RESTART ∨ code = DECT_TIMER_STOP then
    .ok (.timerRestart code)
  else .error .parseError

def DECT_LOCATION_AREA_TYPE_MASK : Nat := 0xc0

def DECT_LOCATION_AREA_TYPE_SHIFT : Nat := 6

def DECT_LOCATION_LEVEL_MASK : Nat := 0x3f

/-- `dect_sfmt_parse_location_area` (mm.c 1191-1201). -/
def dect_sfmt_parse_location_area (src : SfmtIE) : Except SfmtError IEVal :=
  .ok (.locationArea ((src.at 2 &&& DECT_LOCATION_AREA_TYPE_MASK) >>> DECT_LOCATION_AREA_TYPE_SHIFT)
        (src.at 2 &&& DECT_LOCATION_LEVEL_MASK))

/-- `dect_sfmt_build_location_area` (mm.c 1203-1212). -/
def dect_sfmt_build_location_area (ie : IEVal) : Except SfmtError BuildBuf :=
  match ie with
  | .locationArea ty level =>
    .ok ((BuildBuf.empty.set 2 ((ty <<< DECT_LOCATION_AREA_TYPE_SHIFT) ||| level)).setLen 3)
  | _ => .error .modelUndefined

/-- Loop of `dect_sfmt_parse_info_type` (mm.c 797-814): collect parameter
types until the group-end bit or the struct capacity; `fuel` bounds the
iteration (instantiated with the IE length, which the loop never exceeds). -/
def dect_sfmt_parse_info_type_go (src : SfmtIE) : Nat → Nat → Nat → List Nat → List Nat
  | 0, _, _, acc => acc
  | fuel + 1, n, num, acc =>
    if n < src.len then
      let acc := acc ++ [src.at n &&& (255 - DECT_OCTET_GROUP_END)]
      if src.at n &&& DECT_OCTET_GROUP_END ≠ 0 then acc
      else if num + 1 = DECT_IE_INFO_TYPE_SIZE then acc
      else dect_sfmt_parse_info_type_go src fuel (n + 1) (num + 1) acc
    else acc

/-- `dect_sfmt_parse_info_type` (mm.c 797-814). -/
def dect_sfmt_parse_info_type (src : SfmtIE) : Except SfmtError IEVal :=
  .ok (.infoType (dect_sfmt_parse_info_type_go src src.len 2 0 []))

/-- `dect_sfmt_build_info_type` (mm.c 784-795): write all types and set the
group-end bit on the last written octet (octet 1 when the list is empty). -/
def dect_sfmt_build_info_type (ie : IEVal) : Except SfmtError BuildBuf :=
  match ie with
  | .infoType types =>
    let step := types.foldl (fun (p : BuildBuf × Nat) t => (p.1.set p.2 t, p.2 + 1))
      (BuildBuf.empty, 2)
    .ok ((step.1.orAt (step.2 - 1) DECT_OCTET_GROUP_END).setLen step.2)
  | _ => .error .modelUndefined

def DECT_SFMT_IE_PROGRESS_INDICATOR_LOCATION_MASK : Nat := 0x0f

/-- `dect_sfmt_parse_progress_indicator` (mm.c 1559-1568). -/
def dect_sfmt_parse_progress_indicator (src : SfmtIE) : Except SfmtError IEVal :=
  .ok (.progressIndicator (src.at 2 &&& DECT_SFMT_IE_PROGRESS_INDICATOR_LOCATION_MASK)
        (src.at 3 &&& (255 - DECT_OCTET_GROUP_END)))

/-- `dect_sfmt_build_progress_indicator` (mm.c 1570-1579). -/
def dect_sfmt_build_progress_indicator (ie : IEVal) : Except SfmtError BuildBuf :=
  match ie with
  | .progressIndicator location progress =>
    .ok (((BuildBuf.empty.set 3 (DECT_OCTET_GROUP_END ||| progress)).set 2
      (DECT_OCTET_GROUP_END ||| location)).setLen 4)
  | _ => .error .modelUndefined

/-- `dect_sfmt_parse_auth_res` (mm.c 1378-1388): the payload must be exactly
the four value octets; the C code loads them with a host-order 32-bit read,
modelled as a little-endian composition (the build stores with the same
order, so the round trip is order-independent). -/
def dect_sfmt_parse_auth_res (src : SfmtIE) : Except SfmtError IEVal :=
  if src.len ≠ 4 + 2 then .error .parseError
  else .ok (.authRes (src.at 2 + 256 * src.at 3 + 65536 * src.at 4 + 16777216 * src.at 5))

/-- `dect_sfmt_build_auth_res` (mm.c 1390-1398). -/
def dect_sfmt_build_auth_res (ie : IEVal) : Except SfmtError BuildBuf :=
  match ie with
  | .authRes v =>
    .ok (((((BuildBuf.empty.set 2 (v % 256)).set 3 (v / 256 % 256)).set 4
      (v / 65536 % 256)).set 5 (v / 16777216 % 256)).setLen 6)
  | _ => .error .modelUndefined

/-- One entry of the static IE catalog (`struct dect_ie_handler`,
mm.c 2679-3063): optional parse and build function pointers.  The `name`,
`size` and `dump` members do not influence codec behaviour (allocation is
folded into the parse result) and are omitted.  A parse handler receives
the slot it writes through, mirroring `struct dect_ie_common **dst`. -/
structure DectIEHandler where
  parse : Option (SfmtIE → Slot → Except SfmtError Slot)
  build : Option (IEVal → Except SfmtError BuildBuf)

/-- Lift a handler that fills a freshly allocated IE struct (catalog entries
with `size > 0`) to the slot-writing shape. -/
def allocParse (f : SfmtIE → Except SfmtError IEVal) :
    SfmtIE → Slot → Except SfmtError Slot :=
  fun src _ => (f src).map .ie

/-- Catalog entries outside the verified subset: the C table defines more
handlers (identities, capabilities, party numbers, ...), which are not
modelled here; no theorem evaluates the codec on their identifiers. -/
def unmodelledEntry : DectIEHandler := ⟨none, none⟩

/-- The IE catalog `dect_ie_handlers[256]` (mm.c 2679-3063), restricted to
the embedded subset.  Presence and absence of parse/build follow the C
table: TIMER-RESTART has a parse handler but no build handler. -/
def dect_ie_handlers (id : Nat) : DectIEHandler :=
  if id = DECT_IE_REPEAT_INDICATOR then
    ⟨some dect_sfmt_parse_repeat_indicator, some dect_sfmt_build_repeat_indicator⟩
  else if id = DECT_IE_BASIC_SERVICE then
    ⟨some (allocParse dect_sfmt_parse_basic_service), some dect_sfmt_build_basic_service⟩
  else if id = DECT_IE_RELEASE_REASON then
    ⟨some (allocParse dect_sfmt_parse_release_reason), some dect_sfmt_build_release_reason⟩
  else if id = DECT_IE_SIGNAL then
    ⟨some (allocParse dect_sfmt_parse_signal), some dect_sfmt_build_signal⟩
  else if id = DECT_IE_TIMER_RESTART then
    ⟨some (allocParse dect_sfmt_parse_timer_restart), none⟩
  else if id = DECT_IE_SINGLE_DISPLAY then
    ⟨some (allocParse dect_sfmt_parse_single_display), some dect_sfmt_build_single_display⟩
  else if id = DECT_IE_SINGLE_KEYPAD then
    ⟨some (allocParse dect_sfmt_parse_single_keypad), some dect_sfmt_build_single_keypad⟩
  else if id = DECT_IE_MULTI_DISPLAY then
    ⟨some (allocParse dect_sfmt_parse_multi_display), some dect_sfmt_build_multi_display⟩
  else if id = DECT_IE_MULTI_KEYPAD then
    ⟨some (allocParse dect_sfmt_parse_multi_keypad), some dect_sfmt_build_multi_keypad⟩
  else if id = DECT_IE_INFO_TYPE then
    ⟨some (allocParse dect_sfmt_parse_info_type), some dect_sfmt_build_info_type⟩
  else if id = DECT_IE_LOCATION_AREA then
    ⟨some (allocParse dect_sfmt_parse_location_area), some dect_sfmt_build_location_area⟩
  else if id = DECT_IE_REJECT_REASON then
    ⟨some (allocParse dect_sfmt_parse_reject_reason), some dect_sfmt_build_reject_reason⟩
  else if id = DECT_IE_RES then
    ⟨some (allocParse dect_sfmt_parse_auth_res), some dect_sfmt_build_auth_res⟩
  else if id = DECT_IE_PROGRESS_INDICATOR then
    ⟨some (allocParse dect_sfmt_parse_progress_indicator), some dect_sfmt_build_progress_indicator⟩
  else unmodelledEntry

/--
`dect_parse_sfmt_ie` (mm.c 3199-3233): parse one located IE through the
catalog, keyed by the wire identifier `ie->id`.  On a missing parse handler
the slot is untouched; when the handler fails the allocated structure is
freed and the slot set to NULL.  The C `type` parameter is unused by the
function and omitted.  Returns the error (if any) together with the
resulting slot value.
-/
def dect_parse_sfmt_ie (dh : DectHandle) (slot : Slot) (ie : SfmtIE) :
    Option SfmtError × Slot :=
  match (dect_ie_handlers ie.id).parse with
  | none => (some .parseError, slot)
  | some f =>
    match f ie slot with
    | .error e => (some e, .vacant)
    | .ok s => (none, s)

/--
`dect_build_sfmt_ie_header` (mm.c 3163-3182): prepend the framing header.
Fixed-length identifiers are or-ed into octet 0 with the length decided by
the double-octet family bits; a variable-length body of exactly the two
header octets is turned into zero emitted bytes.  The `dect_assert` on
`dst->len > 2` is modelled as an error (no embedded handler violates it).
-/
def dect_build_sfmt_ie_header (dst : BuildBuf) (id : Nat) :
    Except SfmtError BuildBuf :=
  if id &&& DECT_SFMT_IE_FIXED_LEN ≠ 0 then
    let dst := dst.orAt 0 id
    if (id &&& DECT_SFMT_IE_FIXED_ID_MASK) ≠
        (DECT_IE_DOUBLE_OCTET_ELEMENT &&& DECT_SFMT_IE_FIXED_ID_MASK) then
      .ok (dst.setLen 1)
    else
      .ok (dst.setLen 2)
  else
    if dst.len = 2 then .ok (dst.setLen 0)
    else if dst.len > 2 then
      .ok ((dst.set 1 (dst.len - 2)).set 0 id)
    else .error .modelUndefined

/--
`dect_build_sfmt_ie` (mm.c 3347-3388): build one IE and return the bytes
appended to the message buffer.  A SINGLE-DISPLAY slot whose content is
longer than one octet is emitted as MULTI-DISPLAY, analogously for the
keypad.  A missing build handler silently emits nothing and reports
success (`err` is initialised to 0 in C).
-/
def dect_build_sfmt_ie (dh : DectHandle) (ty : Nat) (ie : IEVal) :
    Except SfmtError (List Nat) :=
  let ty := if ty = DECT_IE_SINGLE_DISPLAY then
      match ie with
      | .display info => if info.length > 1 then DECT_IE_MULTI_DISPLAY else ty
      | _ => ty
    else ty
  let ty := if ty = DECT_IE_SINGLE_KEYPAD then
      match ie with
      | .keypad info => if info.length > 1 then DECT_IE_MULTI_KEYPAD else ty
      | _ => ty
    else ty
  match (dect_ie_handlers ty).build with
  | none => .ok []
  | some f =>
    match f ie with
    | .error e => .error e
    | .ok buf =>
      match dect_build_sfmt_ie_header buf ty with
      | .error e => .error e
      | .ok buf => .ok buf.emit

/-- `dect_rx_status` (mm.c 3065-3072): the direction-filtered status that
applies to a received IE; an FP handle reads the PP-to-FP field, a PP
handle the FP-to-PP field. -/
def dect_rx_status (dh : DectHandle) (desc : SfmtIEDesc) : IEStatus :=
  if dh.mode = .DECT_MODE_FP then desc.pp_fp else desc.fp_pp

/-- `dect_tx_status` (mm.c 3074-3081): the direction-filtered status that
applies to a transmitted IE. -/
def dect_tx_status (dh : DectHandle) (desc : SfmtIEDesc) : IEStatus :=
  if dh.mode = .DECT_MODE_FP then desc.fp_pp else desc.pp_fp

/-- `dect_next_ie` (mm.c 3083-3092): advance the slot cursor past the
current descriptor entry.  A REPEAT-INDICATOR entry steps over the in-line
`dect_ie_list`; an entry with the REPEAT flag leaves the cursor in place;
any other entry advances by one pointer.  We measure the struct walk in
slots, with the in-line list occupying one slot, which preserves the
relative layout the C byte arithmetic produces. -/
def dect_next_ie (desc : SfmtIEDesc) (pos : Nat) : Nat :=
  if desc.type = DECT_IE_REPEAT_INDICATOR then pos + 1
  else if ¬ desc.repeatFlag then pos + 1
  else pos

/-- `dect_msg_ie_init` (mm.c 3094-3113): initialise the slot the cursor is
about to use.  The END entry (modelled by the empty descriptor list, hence
`none`) and REPEAT entries leave the storage untouched; a REPEAT-INDICATOR
entry initialises the in-line list (empty list, type still unset); any
other entry clears the IE pointer. -/
def dect_msg_ie_init (desc : Option SfmtIEDesc) (pos : Nat)
    (slots : Nat → Slot) : Nat → Slot :=
  match desc with
  | none => slots
  | some d =>
    if d.type = DECT_IE_REPEAT_INDICATOR then
      fun p => if p = pos then .ielist none [] else slots p
    else if ¬ d.repeatFlag then
      fun p => if p = pos then .vacant else slots p
    else slots

/-- Result of the descriptor-matching loop inside `dect_parse_sfmt_msg`
(mm.c 3272-3300): either a matching entry was found (with the descriptor
tail, slot map and cursor at that entry), or the END entry was reached
(`goto out`), or a policy error aborts the parse. -/
inductive LocateRes where
  | found (d : SfmtIEDesc) (rest : List SfmtIEDesc) (slots : Nat → Slot) (pos : Nat)
  | outEnd (slots : Nat → Slot) (pos : Nat)
  | fail (e : SfmtError)

/--
The inner matching loop of `dect_parse_sfmt_msg` (mm.c 3272-3300): walk the
descriptor, skipping entries the received IE does not satisfy, initialising
each passed slot.  A MANDATORY entry must match the IE or the parse fails
with MANDATORY_IE_MISSING; an IE matching a NONE entry fails the parse; an
OPTIONAL entry matches its own type, and a SINGLE-DISPLAY (SINGLE-KEYPAD)
entry also accepts a wire MULTI-DISPLAY (MULTI-KEYPAD).
-/
def dect_sfmt_locate (dh : DectHandle) (ie : SfmtIE) :
    List SfmtIEDesc → (Nat → Slot) → Nat → LocateRes
  | [], slots, pos => .outEnd slots pos
  | d :: rest, slots, pos =>
    match dect_rx_status dh d with
    | .IE_MANDATORY =>
      if d.type = ie.id then .found d rest slots pos
      else .fail .mandatoryIeMissing
    | .IE_NONE =>
      if d.type = ie.id then .fail .parseError
      else
        let pos' := dect_next_ie d pos
        dect_sfmt_locate dh ie rest (dect_msg_ie_init rest.head? pos' slots) pos'
    | .IE_OPTIONAL =>
      if d.type = ie.id ∨
          (d.type = DECT_IE_SINGLE_DISPLAY ∧ ie.id = DECT_IE_MULTI_DISPLAY) ∨
          (d.type = DECT_IE_SINGLE_KEYPAD ∧ ie.id = DECT_IE_MULTI_KEYPAD) then
        .found d rest slots pos
      else
        let pos' := dect_next_ie d pos
        dect_sfmt_locate dh ie rest (dect_msg_ie_init rest.head? pos' slots) pos'

/--
The `out` loop of `dect_parse_sfmt_msg` (mm.c 3321-3330): once the buffer
is exhausted, every remaining descriptor entry must carry no mandatory
expectation in the receive direction, otherwise MANDATORY_IE_MISSING.
-/
def dect_sfmt_msg_check_rest (dh : DectHandle) :
    List SfmtIEDesc → (Nat → Slot) → Nat → Except SfmtError (Nat → Slot)
  | [], slots, _ => .ok slots
  | d :: rest, slots, pos =>
    if dect_rx_status dh d = .IE_MANDATORY then .error .mandatoryIeMissing
    else
      let pos' := dect_next_ie d pos
      dect_sfmt_msg_check_rest dh rest (dect_msg_ie_init rest.head? pos' slots) pos'

/--
The main loop of `dect_parse_sfmt_msg` (mm.c 3251-3331).  `fuel` bounds the
iteration count; every iteration consumes at least one buffer octet, so any
`fuel ≥ mb.length` is sufficient and the exhaustion branch is unreachable.
An empty variable-length IE (wire length 2) is treated as absent: no
handler runs and the cursor advances.  A failed parse handler aborts with
MANDATORY_IE_ERROR only on a MANDATORY entry; on an OPTIONAL entry the
corrupt IE is dropped (the slot stays NULL) and parsing continues.
-/
def dect_parse_sfmt_msg_go (dh : DectHandle) :
    Nat → List SfmtIEDesc → (Nat → Slot) → Nat → List Nat →
    Except SfmtError (Nat → Slot)
  | fuel, descs, slots, pos, mb =>
    if mb.isEmpty then dect_sfmt_msg_check_rest dh descs slots pos
    else
      match fuel with
      | 0 => .error .modelUndefined
      | fuel + 1 =>
        match dect_parse_sfmt_ie_header mb with
        | .error e => .error e
        | .ok ie =>
          match dect_sfmt_locate dh ie descs slots pos with
          | .fail e => .error e
          | .outEnd slots' _ => .ok slots'
          | .found d rest slots' pos' =>
            if ie.id &&& DECT_SFMT_IE_FIXED_LEN = 0 ∧ ie.len = 2 then
              let pos'' := dect_next_ie d pos'
              dect_parse_sfmt_msg_go dh fuel rest
                (dect_msg_ie_init rest.head? pos'' slots') pos'' (mb.drop ie.len)
            else
              let res := dect_parse_sfmt_ie dh (slots' pos') ie
              if res.1.isSome ∧ dect_rx_status dh d = .IE_MANDATORY then
                .error .mandatoryIeError
              else
                let slots'' := fun p => if p = pos' then res.2 else slots' p
                let pos'' := dect_next_ie d pos'
                dect_parse_sfmt_msg_go dh fuel rest
                  (dect_msg_ie_init rest.head? pos'' slots'') pos'' (mb.drop ie.len)

/--
`dect_parse_sfmt_msg` (mm.c 3251-3331): parse an S-format IE stream against
a message descriptor, producing the filled slot map.  The first slot is
initialised before the loop as in C.
-/
def dect_parse_sfmt_msg (dh : DectHandle) (descs : List SfmtIEDesc)
    (mb : List Nat) : Except SfmtError (Nat → Slot) :=
  dect_parse_sfmt_msg_go dh mb.length descs
    (dect_msg_ie_init descs.head? 0 (fun _ => .uninit)) 0 mb

/-- `__dect_build_sfmt_ie` (mm.c 3390-3402): refuse to build an IE whose
direction-filtered transmit status is NONE, otherwise defer to
`dect_build_sfmt_ie`. -/
def dect_build_sfmt_ie_dir (dh : DectHandle) (d : SfmtIEDesc) (ie : IEVal) :
    Except SfmtError (List Nat) :=
  if dect_tx_status dh d = .IE_NONE then .error .invalidIe
  else dect_build_sfmt_ie dh d.type ie

/-- The `dect_foreach_ie` loop of `dect_build_sfmt_msg` (mm.c 3435-3439):
build every element of a repeat list against the REPEAT entry. -/
def dect_foreach_ie_build (dh : DectHandle) (d : SfmtIEDesc) :
    List IEVal → Except SfmtError (List Nat)
  | [] => .ok []
  | v :: vs =>
    match dect_build_sfmt_ie_dir dh d v with
    | .error e => .error e
    | .ok bytes => (dect_foreach_ie_build dh d vs).map (fun t => bytes ++ t)

/--
`dect_build_sfmt_msg` (mm.c 3404-3459), as a walk over the descriptor list
with the slot cursor: a REPEAT-INDICATOR entry serialises its in-line list
(the indicator itself only when the list has at least two elements,
followed by the elements in order), a populated ordinary entry serialises
its IE, and a NULL slot on an entry whose transmit status is MANDATORY
fails with MANDATORY_IE_MISSING.  The `dect_assert` that a REPEAT entry
follows every REPEAT-INDICATOR is modelled as an error; a slot whose
stored shape does not match the entry is a raw-memory read in C and is
treated as a NULL list (never exercised by the theorems).
-/
def dect_build_sfmt_msg_go (dh : DectHandle) :
    List SfmtIEDesc → (Nat → Slot) → Nat → Except SfmtError (List Nat)
  | [], _, _ => .ok []
  | d :: rest, slots, pos =>
    let next := dect_next_ie d pos
    if d.type = DECT_IE_REPEAT_INDICATOR then
      let iel := match slots pos with
        | .ielist ty elems => (ty, elems)
        | _ => (none, [])
      match iel.2 with
      | [] =>
        match rest with
        | [] => .ok []
        | _ :: rest' => dect_build_sfmt_msg_go dh rest' slots next
      | e0 :: etail =>
        let ind : Except SfmtError (List Nat) :=
          if etail ≠ [] then
            dect_build_sfmt_ie_dir dh d (.repeatIndicator (iel.1.getD 0))
          else .ok []
        match ind with
        | .error e => .error e
        | .ok indBytes =>
          match rest with
          | [] => .error .modelUndefined
          | ed :: rest' =>
            if ¬ ed.repeatFlag then .error .modelUndefined
            else
              match dect_foreach_ie_build dh ed (e0 :: etail) with
              | .error e => .error e
              | .ok elemBytes =>
                (dect_build_sfmt_msg_go dh rest' slots next).map
                  (fun t => indBytes ++ elemBytes ++ t)
    else
      match slots pos with
      | .ie v =>
        match dect_build_sfmt_ie_dir dh d v with
        | .error e => .error e
        | .ok bytes =>
          (dect_build_sfmt_msg_go dh rest slots next).map (fun t => bytes ++ t)
      | _ =>
        if dect_tx_status dh d = .IE_MANDATORY then .error .mandatoryIeMissing
        else dect_build_sfmt_msg_go dh rest slots next

/-- `dect_build_sfmt_msg` (mm.c 3404-3459) on a message whose slots start
at cursor 0. -/
def dect_build_sfmt_msg (dh : DectHandle) (descs : List SfmtIEDesc)
    (slots : Nat → Slot) : Except SfmtError (List Nat) :=
  dect_build_sfmt_msg_go dh descs slots 0

/- Message descriptor tables, each entry `(ie type, FP-to-PP status,
PP-to-FP status, repeat flag)`; the C END sentinel is the list end.  The
`S_VL_IE`, `S_SO_IE`, `S_DO_IE` and `S_SE_IE` prefixes of the C sources
alias the `DECT_IE` identifiers. -/

/-- `cc_info` message descriptor (part_002 lines 69-96). -/
def cc_info_msg_desc : List SfmtIEDesc := [
  ⟨DECT_IE_LOCATION_AREA, .IE_NONE, .IE_OPTIONAL, false⟩,
  ⟨DECT_IE_NWK_ASSIGNED_IDENTITY, .IE_NONE, .IE_OPTIONAL, false⟩,
  ⟨DECT_IE_REPEAT_INDICATOR, .IE_OPTIONAL, .IE_OPTIONAL, false⟩,
  ⟨DECT_IE_FACILITY, .IE_OPTIONAL, .IE_OPTIONAL, true⟩,
  ⟨DECT_IE_REPEAT_INDICATOR, .IE_OPTIONAL, .IE_OPTIONAL, false⟩,
  ⟨DECT_IE_PROGRESS_INDICATOR, .IE_OPTIONAL, .IE_NONE, true⟩,
  ⟨DECT_IE_SINGLE_DISPLAY, .IE_OPTIONAL, .IE_NONE, false⟩,
  ⟨DECT_IE_SINGLE_KEYPAD, .IE_OPTIONAL, .IE_OPTIONAL, false⟩,
  ⟨DECT_IE_SIGNAL, .IE_OPTIONAL, .IE_NONE, false⟩,
  ⟨DECT_IE_FEATURE_ACTIVATE, .IE_NONE, .IE_OPTIONAL, false⟩,
  ⟨DECT_IE_FEATURE_INDICATE, .IE_OPTIONAL, .IE_NONE, false⟩,
  ⟨DECT_IE_NETWORK_PARAMETER, .IE_OPTIONAL, .IE_OPTIONAL, false⟩,
  ⟨DECT_IE_EXT_HO_INDICATOR, .IE_OPTIONAL, .IE_NONE, false⟩,
  ⟨DECT_IE_CALLING_PARTY_NUMBER, .IE_OPTIONAL, .IE_OPTIONAL, false⟩,
  ⟨DECT_IE_CALLED_PARTY_NUMBER, .IE_OPTIONAL, .IE_OPTIONAL, false⟩,
  ⟨DECT_IE_CALLED_PARTY_SUBADDR, .IE_OPTIONAL, .IE_OPTIONAL, false⟩,
  ⟨DECT_IE_SENDING_COMPLETE, .IE_OPTIONAL, .IE_OPTIONAL, false⟩,
  ⟨DECT_IE_TEST_HOOK_CONTROL, .IE_OPTIONAL, .IE_NONE, false⟩,
  ⟨DECT_IE_REPEAT_INDICATOR, .IE_OPTIONAL, .IE_OPTIONAL, false⟩,
  ⟨DECT_IE_IWU_TO_IWU, .IE_OPTIONAL, .IE_OPTIONAL, true⟩,
  ⟨DECT_IE_IWU_PACKET, .IE_OPTIONAL, .IE_OPTIONAL, false⟩,
  ⟨DECT_IE_CALLING_PARTY_NAME, .IE_OPTIONAL, .IE_OPTIONAL, false⟩,
  ⟨DECT_IE_CODEC_LIST, .IE_OPTIONAL, .IE_OPTIONAL, false⟩,
  ⟨DECT_IE_CALL_INFORMATION, .IE_OPTIONAL, .IE_OPTIONAL, false⟩,
  ⟨DECT_IE_ESCAPE_TO_PROPRIETARY, .IE_OPTIONAL, .IE_OPTIONAL, false⟩]

/-- `cc_setup_ack` message descriptor (part_002 lines 98-125). -/
def cc_setup_ack_msg_desc : List SfmtIEDesc := [
  ⟨DECT_IE_INFO_TYPE, .IE_OPTIONAL, .IE_NONE, false⟩,
  ⟨DECT_IE_PORTABLE_IDENTITY, .IE_OPTIONAL, .IE_NONE, false⟩,
  ⟨DECT_IE_FIXED_IDENTITY, .IE_OPTIONAL, .IE_NONE, false⟩,
  ⟨DECT_IE_LOCATION_AREA, .IE_OPTIONAL, .IE_NONE, false⟩,
  ⟨DECT_IE_IWU_ATTRIBUTES, .IE_OPTIONAL, .IE_NONE, false⟩,
  ⟨DECT_IE_CALL_ATTRIBUTES, .IE_OPTIONAL, .IE_NONE, false⟩,
  ⟨DECT_IE_CONNECTION_ATTRIBUTES, .IE_OPTIONAL, .IE_NONE, false⟩,
  ⟨DECT_IE_CONNECTION_IDENTITY, .IE_OPTIONAL, .IE_NONE, false⟩,
  ⟨DECT_IE_REPEAT_INDICATOR, .IE_OPTIONAL, .IE_NONE, false⟩,
  ⟨DECT_IE_FACILITY, .IE_OPTIONAL, .IE_NONE, true⟩,
  ⟨DECT_IE_REPEAT_INDICATOR, .IE_OPTIONAL, .IE_NONE, false⟩,
  ⟨DECT_IE_PROGRESS_INDICATOR, .IE_OPTIONAL, .IE_NONE, true⟩,
  ⟨DECT_IE_SINGLE_DISPLAY, .IE_OPTIONAL, .IE_NONE, false⟩,
  ⟨DECT_IE_SIGNAL, .IE_OPTIONAL, .IE_NONE, false⟩,
  ⟨DECT_IE_FEATURE_INDICATE, .IE_OPTIONAL, .IE_NONE, false⟩,
  ⟨DECT_IE_NETWORK_PARAMETER, .IE_OPTIONAL, .IE_NONE, false⟩,
  ⟨DECT_IE_EXT_HO_INDICATOR, .IE_OPTIONAL, .IE_NONE, false⟩,
  ⟨DECT_IE_TRANSIT_DELAY, .IE_OPTIONAL, .IE_NONE, false⟩,
  ⟨DECT_IE_WINDOW_SIZE, .IE_OPTIONAL, .IE_NONE, false⟩,
  ⟨DECT_IE_DELIMITER_REQUEST, .IE_OPTIONAL, .IE_NONE, false⟩,
  ⟨DECT_IE_REPEAT_INDICATOR, .IE_OPTIONAL, .IE_NONE, false⟩,
  ⟨DECT_IE_IWU_TO_IWU, .IE_OPTIONAL, .IE_NONE, true⟩,
  ⟨DECT_IE_IWU_PACKET, .IE_OPTIONAL, .IE_NONE, false⟩,
  ⟨DECT_IE_CODEC_LIST, .IE_OPTIONAL, .IE_NONE, false⟩,
  ⟨DECT_IE_ESCAPE_TO_PROPRIETARY, .IE_OPTIONAL, .IE_NONE, false⟩]

/-- `cc_call_proc` message descriptor (part_002 lines 127-147). -/
def cc_call_proc_msg_desc : List SfmtIEDesc := [
  ⟨DECT_IE_IWU_ATTRIBUTES, .IE_OPTIONAL, .IE_NONE, false⟩,
  ⟨DECT_IE_CALL_ATTRIBUTES, .IE_OPTIONAL, .IE_NONE, false⟩,
  ⟨DECT_IE_CONNECTION_ATTRIBUTES, .IE_OPTIONAL, .IE_NONE, false⟩,
  ⟨DECT_IE_CONNECTION_IDENTITY, .IE_OPTIONAL, .IE_NONE, false⟩,
  ⟨DECT_IE_REPEAT_INDICATOR, .IE_OPTIONAL, .IE_NONE, false⟩,
  ⟨DECT_IE_FACILITY, .IE_OPTIONAL, .IE_NONE, true⟩,
  ⟨DECT_IE_REPEAT_INDICATOR, .IE_OPTIONAL, .IE_NONE, false⟩,
  ⟨DECT_IE_PROGRESS_INDICATOR, .IE_OPTIONAL, .IE_NONE, true⟩,
  ⟨DECT_IE_SINGLE_DISPLAY, .IE_OPTIONAL, .IE_NONE, false⟩,
  ⟨DECT_IE_SIGNAL, .IE_OPTIONAL, .IE_NONE, false⟩,
  ⟨DECT_IE_FEATURE_INDICATE, .IE_OPTIONAL, .IE_NONE, false⟩,
  ⟨DECT_IE_TRANSIT_DELAY, .IE_OPTIONAL, .IE_NONE, false⟩,
  ⟨DECT_IE_WINDOW_SIZE, .IE_OPTIONAL, .IE_NONE, false⟩,
  ⟨DECT_IE_REPEAT_INDICATOR, .IE_OPTIONAL, .IE_NONE, false⟩,
  ⟨DECT_IE_IWU_TO_IWU, .IE_OPTIONAL, .IE_NONE, true⟩,
  ⟨DECT_IE_IWU_PACKET, .IE_OPTIONAL, .IE_NONE, false⟩,
  ⟨DECT_IE_CODEC_LIST, .IE_OPTIONAL, .IE_NONE, false⟩,
  ⟨DECT_IE_ESCAPE_TO_PROPRIETARY, .IE_OPTIONAL, .IE_NONE, false⟩]

/-- `cc_alerting` message descriptor (part_002 lines 149-170). -/
def cc_alerting_msg_desc : List SfmtIEDesc := [
  ⟨DECT_IE_IWU_ATTRIBUTES, .IE_OPTIONAL, .IE_OPTIONAL, false⟩,
  ⟨DECT_IE_CALL_ATTRIBUTES, .IE_OPTIONAL, .IE_OPTIONAL, false⟩,
  ⟨DECT_IE_CONNECTION_ATTRIBUTES, .IE_OPTIONAL, .IE_OPTIONAL, false⟩,
  ⟨DECT_IE_CONNECTION_IDENTITY, .IE_OPTIONAL, .IE_OPTIONAL, false⟩,
  ⟨DECT_IE_REPEAT_INDICATOR, .IE_OPTIONAL, .IE_OPTIONAL, false⟩,
  ⟨DECT_IE_FACILITY, .IE_OPTIONAL, .IE_OPTIONAL, true⟩,
  ⟨DECT_IE_REPEAT_INDICATOR, .IE_OPTIONAL, .IE_NONE, false⟩,
  ⟨DECT_IE_PROGRESS_INDICATOR, .IE_OPTIONAL, .IE_NONE, true⟩,
  ⟨DECT_IE_SINGLE_DISPLAY, .IE_OPTIONAL, .IE_NONE, false⟩,
  ⟨DECT_IE_SIGNAL, .IE_OPTIONAL, .IE_NONE, false⟩,
  ⟨DECT_IE_FEATURE_INDICATE, .IE_OPTIONAL, .IE_NONE, false⟩,
  ⟨DECT_IE_TERMINAL_CAPABILITY, .IE_NONE, .IE_OPTIONAL, false⟩,
  ⟨DECT_IE_TRANSIT_DELAY, .IE_OPTIONAL, .IE_OPTIONAL, false⟩,
  ⟨DECT_IE_WINDOW_SIZE, .IE_OPTIONAL, .IE_OPTIONAL, false⟩,
  ⟨DECT_IE_REPEAT_INDICATOR, .IE_OPTIONAL, .IE_OPTIONAL, false⟩,
  ⟨DECT_IE_IWU_TO_IWU, .IE_OPTIONAL, .IE_OPTIONAL, true⟩,
  ⟨DECT_IE_IWU_PACKET, .IE_OPTIONAL, .IE_OPTIONAL, false⟩,
  ⟨DECT_IE_CODEC_LIST, .IE_OPTIONAL, .IE_OPTIONAL, false⟩,
  ⟨DECT_IE_ESCAPE_TO_PROPRIETARY, .IE_OPTIONAL, .IE_OPTIONAL, false⟩]

/-- `cc_connect` message descriptor (part_002 lines 172-196). -/
def cc_connect_msg_desc : List SfmtIEDesc := [
  ⟨DECT_IE_IWU_ATTRIBUTES, .IE_OPTIONAL, .IE_OPTIONAL, false⟩,
  ⟨DECT_IE_CALL_ATTRIBUTES, .IE_OPTIONAL, .IE_OPTIONAL, false⟩,
  ⟨DECT_IE_CONNECTION_ATTRIBUTES, .IE_OPTIONAL, .IE_OPTIONAL, false⟩,
  ⟨DECT_IE_CONNECTION_IDENTITY, .IE_OPTIONAL, .IE_OPTIONAL, false⟩,
  ⟨DECT_IE_REPEAT_INDICATOR, .IE_OPTIONAL, .IE_OPTIONAL, false⟩,
  ⟨DECT_IE_FACILITY, .IE_OPTIONAL, .IE_OPTIONAL, true⟩,
  ⟨DECT_IE_REPEAT_INDICATOR, .IE_OPTIONAL, .IE_NONE, false⟩,
  ⟨DECT_IE_PROGRESS_INDICATOR, .IE_OPTIONAL, .IE_NONE, true⟩,
  ⟨DECT_IE_SINGLE_DISPLAY, .IE_OPTIONAL, .IE_NONE, false⟩,
  ⟨DECT_IE_SIGNAL, .IE_OPTIONAL, .IE_NONE, false⟩,
  ⟨DECT_IE_FEATURE_INDICATE, .IE_OPTIONAL, .IE_NONE, false⟩,
  ⟨DECT_IE_NETWORK_PARAMETER, .IE_OPTIONAL, .IE_NONE, false⟩,
  ⟨DECT_IE_EXT_HO_INDICATOR, .IE_OPTIONAL, .IE_NONE, false⟩,
  ⟨DECT_IE_TERMINAL_CAPABILITY, .IE_NONE, .IE_OPTIONAL, false⟩,
  ⟨DECT_IE_TRANSIT_DELAY, .IE_OPTIONAL, .IE_OPTIONAL, false⟩,
  ⟨DECT_IE_WINDOW_SIZE, .IE_OPTIONAL, .IE_OPTIONAL, false⟩,
  ⟨DECT_IE_REPEAT_INDICATOR, .IE_OPTIONAL, .IE_OPTIONAL, false⟩,
  ⟨DECT_IE_SEGMENTED_INFO, .IE_OPTIONAL, .IE_OPTIONAL, true⟩,
  ⟨DECT_IE_IWU_TO_IWU, .IE_OPTIONAL, .IE_OPTIONAL, false⟩,
  ⟨DECT_IE_IWU_PACKET, .IE_OPTIONAL, .IE_OPTIONAL, false⟩,
  ⟨DECT_IE_CODEC_LIST, .IE_OPTIONAL, .IE_OPTIONAL, false⟩,
  ⟨DECT_IE_ESCAPE_TO_PROPRIETARY, .IE_OPTIONAL, .IE_OPTIONAL, false⟩]

/-- `mm_authentication_reply` message descriptor (mm.c lines 74-84). -/
def mm_authentication_reply_msg_desc : List SfmtIEDesc := [
  ⟨DECT_IE_RES, .IE_MANDATORY, .IE_MANDATORY, false⟩,
  ⟨DECT_IE_RS, .IE_OPTIONAL, .IE_NONE, false⟩,
  ⟨DECT_IE_ZAP_FIELD, .IE_NONE, .IE_OPTIONAL, false⟩,
  ⟨DECT_IE_SERVICE_CLASS, .IE_NONE, .IE_OPTIONAL, false⟩,
  ⟨DECT_IE_KEY, .IE_NONE, .IE_OPTIONAL, false⟩,
  ⟨DECT_IE_REPEAT_INDICATOR, .IE_OPTIONAL, .IE_OPTIONAL, false⟩,
  ⟨DECT_IE_IWU_TO_IWU, .IE_OPTIONAL, .IE_OPTIONAL, true⟩,
  ⟨DECT_IE_ESCAPE_TO_PROPRIETARY, .IE_OPTIONAL, .IE_OPTIONAL, false⟩]

/-- `mm_locate_accept` message descriptor (mm.c lines 106-121). -/
def mm_locate_accept_msg_desc : List SfmtIEDesc := [
  ⟨DECT_IE_PORTABLE_IDENTITY, .IE_MANDATORY, .IE_NONE, false⟩,
  ⟨DECT_IE_LOCATION_AREA, .IE_MANDATORY, .IE_NONE, false⟩,
  ⟨DECT_IE_USE_TPUI, .IE_OPTIONAL, .IE_NONE, false⟩,
  ⟨DECT_IE_NWK_ASSIGNED_IDENTITY, .IE_OPTIONAL, .IE_NONE, false⟩,
  ⟨DECT_IE_EXT_HO_INDICATOR, .IE_OPTIONAL, .IE_NONE, false⟩,
  ⟨DECT_IE_SETUP_CAPABILITY, .IE_OPTIONAL, .IE_NONE, false⟩,
  ⟨DECT_IE_DURATION, .IE_OPTIONAL, .IE_NONE, false⟩,
  ⟨DECT_IE_REPEAT_INDICATOR, .IE_OPTIONAL, .IE_OPTIONAL, false⟩,
  ⟨DECT_IE_SEGMENTED_INFO, .IE_OPTIONAL, .IE_OPTIONAL, true⟩,
  ⟨DECT_IE_IWU_TO_IWU, .IE_OPTIONAL, .IE_NONE, false⟩,
  ⟨DECT_IE_MODEL_IDENTIFIER, .IE_OPTIONAL, .IE_NONE, false⟩,
  ⟨DECT_IE_CODEC_LIST, .IE_OPTIONAL, .IE_NONE, false⟩,
  ⟨DECT_IE_ESCAPE_TO_PROPRIETARY, .IE_OPTIONAL, .IE_NONE, false⟩]

/-- `mm_locate_reject` message descriptor (mm.c lines 123-131). -/
def mm_locate_reject_msg_desc : List SfmtIEDesc := [
  ⟨DECT_IE_REJECT_REASON, .IE_OPTIONAL, .IE_NONE, false⟩,
  ⟨DECT_IE_DURATION, .IE_OPTIONAL, .IE_NONE, false⟩,
  ⟨DECT_IE_REPEAT_INDICATOR, .IE_OPTIONAL, .IE_OPTIONAL, false⟩,
  ⟨DECT_IE_SEGMENTED_INFO, .IE_OPTIONAL, .IE_OPTIONAL, true⟩,
  ⟨DECT_IE_IWU_TO_IWU, .IE_OPTIONAL, .IE_NONE, false⟩,
  ⟨DECT_IE_ESCAPE_TO_PROPRIETARY, .IE_OPTIONAL, .IE_NONE, false⟩]

/-- `mm_locate_request` message descriptor (mm.c lines 133-149). -/
def mm_locate_request_msg_desc : List SfmtIEDesc := [
  ⟨DECT_IE_PORTABLE_IDENTITY, .IE_NONE, .IE_MANDATORY, false⟩,
  ⟨DECT_IE_FIXED_IDENTITY, .IE_NONE, .IE_OPTIONAL, false⟩,
  ⟨DECT_IE_LOCATION_AREA, .IE_NONE, .IE_OPTIONAL, false⟩,
  ⟨DECT_IE_NWK_ASSIGNED_IDENTITY, .IE_NONE, .IE_OPTIONAL, false⟩,
  ⟨DECT_IE_CIPHER_INFO, .IE_NONE, .IE_OPTIONAL, false⟩,
  ⟨DECT_IE_SETUP_CAPABILITY, .IE_NONE, .IE_OPTIONAL, false⟩,
  ⟨DECT_IE_TERMINAL_CAPABILITY, .IE_NONE, .IE_OPTIONAL, false⟩,
  ⟨DECT_IE_NETWORK_PARAMETER, .IE_NONE, .IE_OPTIONAL, false⟩,
  ⟨DECT_IE_REPEAT_INDICATOR, .IE_OPTIONAL, .IE_OPTIONAL, false⟩,
  ⟨DECT_IE_SEGMENTED_INFO, .IE_OPTIONAL, .IE_OPTIONAL, true⟩,
  ⟨DECT_IE_IWU_TO_IWU, .IE_NONE, .IE_OPTIONAL, false⟩,
  ⟨DECT_IE_MODEL_IDENTIFIER, .IE_NONE, .IE_OPTIONAL, false⟩,
  ⟨DECT_IE_CODEC_LIST, .IE_NONE, .IE_OPTIONAL, false⟩,
  ⟨DECT_IE_ESCAPE_TO_PROPRIETARY, .IE_NONE, .IE_OPTIONAL, false⟩]

/-- `mm_temporary_identity_assign_rej` message descriptor (mm.c 170-174). -/
def mm_temporary_identity_assign_rej_msg_desc : List SfmtIEDesc := [
  ⟨DECT_IE_REJECT_REASON, .IE_NONE, .IE_OPTIONAL, false⟩,
  ⟨DECT_IE_ESCAPE_TO_PROPRIETARY, .IE_NONE, .IE_OPTIONAL, false⟩]

/- Call Control entity (part_002).  The CC message type octets live in the
missing cc.h header; values follow ETSI EN 300 175-5 and only serve as
distinct tags here. -/

def CC_ALERTING : Nat := 0x01

def CC_CALL_PROC : Nat := 0x02

def CC_SETUP : Nat := 0x05

def CC_CONNECT : Nat := 0x07

def CC_SETUP_ACK : Nat := 0x0d

def CC_CONNECT_ACK : Nat := 0x0f

def CC_RELEASE : Nat := 0x4d

def CC_RELEASE_COM : Nat := 0x5a

/-- `enum dect_cc_states` (cc.h): the 11 call states plus NULL. -/
inductive CCState where
  | DECT_CC_NULL
  | DECT_CC_CALL_INITIATED
  | DECT_CC_OVERLAP_SENDING
  | DECT_CC_CALL_PROCEEDING
  | DECT_CC_CALL_DELIVERED
  | DECT_CC_CALL_PRESENT
  | DECT_CC_CALL_RECEIVED
  | DECT_CC_CONNECT_PENDING
  | DECT_CC_ACTIVE
  | DECT_CC_RELEASE_PENDING
  | DECT_CC_OVERLAP_RECEIVING
  | DECT_CC_INCOMING_CALL_PROCEEDING
deriving DecidableEq, Repr

/-- `struct dect_call`, restricted to the fields the embedded handlers
touch.  `setup_timer` models the timer pointer: `none` is a freed (NULL)
timer, `some b` an allocated timer with running flag `b`.  `lu_sap` records
whether the U-plane socket is connected. -/
structure DectCall where
  state : CCState
  setup_timer : Option Bool
  lu_sap : Bool
deriving DecidableEq, Repr

/-- Externally visible effects of the embedded CC functions, in emission
order: wire sends through `dect_lce_send` (lce.c is not part of the
sources and is modelled as the emission itself), MNCC indications to the
application, transaction closure and call destruction.  Indication
parameter collections are allocated afresh; `emptyParams` records that the
MNCC-REJECT-ind collection carries no IEs. -/
inductive CCEvent where
  | sendMsg (ty : Nat)
  | mnccRejectInd (emptyParams : Bool)
  | mnccAlertInd
  | mnccConnectInd
  | closeTransaction
  | destroyCall
deriving DecidableEq, Repr

/--
`dect_cc_setup_timer` (part_002 lines 434-450), the setup timer expiry
callback: allocate an empty release parameter collection, emit a single
MNCC-REJECT-ind carrying it, release the collection, close the transaction
and destroy the call.  Allocation is modelled as succeeding.  The event
loop invokes this callback only for an armed timer
(`setup_timer = some true`).
-/
def dect_cc_setup_timer (dh : DectHandle) (call : DectCall) :
    Option DectCall × List CCEvent :=
  (none, [.mnccRejectInd true, .closeTransaction, .destroyCall])

/--
`dect_mncc_setup_req` (part_002 lines 452-509): open a CC transaction,
send CC-SETUP, move to CALL_PRESENT and arm the setup timer.  `openOk` and
`sendOk` stand for the results of `dect_open_transaction` and
`dect_lce_send` (lce.c, not part of the sources); on a send failure the
transaction is closed again.
-/
def dect_mncc_setup_req (dh : DectHandle) (call : DectCall)
    (openOk sendOk : Bool) : Int × DectCall × List CCEvent :=
  if ¬ openOk then (-1, call, [])
  else if ¬ sendOk then (-1, call, [.closeTransaction])
  else (0, { call with state := .DECT_CC_CALL_PRESENT, setup_timer := some true },
    [.sendMsg CC_SETUP])

/--
`dect_cc_rcv_alerting` (part_002 lines 783-804): the out-of-state guard is
a no-op (`if (...) ;`); a message that fails to parse is dropped; otherwise
the setup timer, when still allocated, is stopped and freed, MNCC-ALERT-ind
is delivered and the state becomes CALL_RECEIVED.
-/
def dect_cc_rcv_alerting (dh : DectHandle) (call : DectCall) (mb : List Nat) :
    DectCall × List CCEvent :=
  match dect_parse_sfmt_msg dh cc_alerting_msg_desc mb with
  | .error _ => (call, [])
  | .ok _ =>
    let call := match call.setup_timer with
      | some _ => { call with setup_timer := none }
      | none => call
    ({ call with state := .DECT_CC_CALL_RECEIVED }, [.mnccAlertInd])

/--
`dect_cc_rcv_connect` (part_002 lines 840-861): the out-of-state guard is a
no-op; a message that fails to parse is dropped; otherwise the setup timer,
when still allocated, is stopped and freed and MNCC-CONNECT-ind is
delivered.  The handler changes neither the call state nor the U-plane
socket.
-/
def dect_cc_rcv_connect (dh : DectHandle) (call : DectCall) (mb : List Nat) :
    DectCall × List CCEvent :=
  match dect_parse_sfmt_msg dh cc_connect_msg_desc mb with
  | .error _ => (call, [])
  | .ok _ =>
    let call := match call.setup_timer with
      | some _ => { call with setup_timer := none }
      | none => call
    (call, [.mnccConnectInd])

/--
`dect_cc_rcv_call_proc` (part_002 lines 806-814): parse the message and
discard it; no indication, no timer or state manipulation either way.
-/
def dect_cc_rcv_call_proc (dh : DectHandle) (call : DectCall) (mb : List Nat) :
    DectCall × List CCEvent :=
  match dect_parse_sfmt_msg dh cc_call_proc_msg_desc mb with
  | .error _ => (call, [])
  | .ok _ => (call, [])

/--
`dect_cc_rcv_setup_ack` (part_002 lines 863-873): parse and free the
message; nothing else.
-/
def dect_cc_rcv_setup_ack (dh : DectHandle) (call : DectCall) (mb : List Nat) :
    DectCall × List CCEvent :=
  match dect_parse_sfmt_msg dh cc_setup_ack_msg_desc mb with
  | .error _ => (call, [])
  | .ok _ => (call, [])

/- Mobility Management entity (mm.c).  Message type octets per ETSI
EN 300 175-5 (mm.h is not part of the sources). -/

def DECT_MM_LOCATE_ACCEPT : Nat := 0x54

def DECT_MM_LOCATE_REJECT : Nat := 0x56

/-- `struct dect_mm_transaction`: the wrapped transaction, reduced to its
open/closed state. -/
structure DectMMTransaction where
  transaction_open : Bool
deriving DecidableEq, Repr

/-- Externally visible effects of the embedded MM functions. -/
inductive MMEvent where
  | sendMsg (ty : Nat)
  | closeTransaction
  | destroyTransaction
deriving DecidableEq, Repr

/-- `struct dect_mm_locate_param`, restricted to the fields
`dect_mm_locate_res` and the two send helpers read. -/
structure DectMMLocateParam where
  portable_identity : Option IEVal
  location_area : Option IEVal
  nwk_assigned_identity : Option IEVal
  duration : Option IEVal
  iwu_to_iwu : Option IEVal
  model_identifier : Option IEVal
  reject_reason : Option IEVal
deriving DecidableEq, Repr

/--
`dect_mm_send_locate_accept` (mm.c 315-330): assemble the LOCATE-ACCEPT
message from the parameter collection and send it through
`dect_mm_send_msg`/`dect_lce_send` (lce.c not in the sources; the send is
modelled as the emission, succeeding).  The transaction is left untouched.
-/
def dect_mm_send_locate_accept (dh : DectHandle) (mmta : DectMMTransaction)
    (param : DectMMLocateParam) : Int × DectMMTransaction × List MMEvent :=
  (0, mmta, [.sendMsg DECT_MM_LOCATE_ACCEPT])

/--
`dect_mm_send_locate_reject` (mm.c 332-346): assemble and send
LOCATE-REJECT; the transaction is left untouched.
-/
def dect_mm_send_locate_reject (dh : DectHandle) (mmta : DectMMTransaction)
    (param : DectMMLocateParam) : Int × DectMMTransaction × List MMEvent :=
  (0, mmta, [.sendMsg DECT_MM_LOCATE_REJECT])

/--
`dect_mm_locate_res` (mm.c 348-355): reply to an MM-LOCATE-ind with
LOCATE-ACCEPT when `param->reject_reason` is NULL and LOCATE-REJECT
otherwise.  Unlike `dect_mm_access_rights_res` (mm.c 241-274), the function
neither closes the transaction nor destroys the MM transaction wrapper.
-/
def dect_mm_locate_res (dh : DectHandle) (mmta : DectMMTransaction)
    (param : DectMMLocateParam) : Int × DectMMTransaction × List MMEvent :=
  if param.reject_reason = none then dect_mm_send_locate_accept dh mmta param
  else dect_mm_send_locate_reject dh mmta param

/- Helper definitions for the statements. -/

/-- The slot a successful message parse left at position `p`. -/
def parsedSlotAt (r : Except SfmtError (Nat → Slot)) (p : Nat) : Option Slot :=
  match r with
  | .ok s => some (s p)
  | .error _ => none

/-- Full-message round trip: parse with the receiving handle, rebuild with
the transmitting handle. -/
def dect_sfmt_msg_roundtrip (dhrx dhtx : DectHandle) (descs : List SfmtIEDesc)
    (mb : List Nat) : Except SfmtError (List Nat) :=
  match dect_parse_sfmt_msg dhrx descs mb with
  | .error e => .error e
  | .ok slots => dect_build_sfmt_msg dhtx descs slots

/-- Single-IE round trip: parse the header and the IE off `bytes` (into
`slot`, which only matters for the repeat indicator), then rebuild the
resulting value under the same wire identifier. -/
def dect_sfmt_ie_roundtrip (dh : DectHandle) (slot : Slot) (bytes : List Nat) :
    Except SfmtError (List Nat) :=
  match dect_parse_sfmt_ie_header bytes with
  | .error e => .error e
  | .ok ie =>
    match dect_parse_sfmt_ie dh slot ie with
    | (some e, _) => .error e
    | (none, .ie v) => dect_build_sfmt_ie dh ie.id v
    | (none, .ielist (some t) _) => dect_build_sfmt_ie dh ie.id (.repeatIndicator t)
    | (none, _) => .error .modelUndefined

instance {ε α : Type} [DecidableEq ε] [DecidableEq α] : DecidableEq (Except ε α) :=
  fun x y =>
    match x, y with
    | .ok a, .ok b => decidable_of_iff (a = b) (by simp)
    | .ok _, .error _ => isFalse (by simp)
    | .error _, .ok _ => isFalse (by simp)
    | .error e, .error f => decidable_of_iff (e = f) (by simp)

/-- The fixed part and the portable part as handles. -/
def FPhandle : DectHandle := ⟨.DECT_MODE_FP⟩

def PPhandle : DectHandle := ⟨.DECT_MODE_PP⟩

/-- The matching loop of `dect_parse_sfmt_msg` passes over descriptor entry
`d` without matching the received IE: a NONE or OPTIONAL entry whose type
differs from the wire identifier, with neither display nor keypad
relaxation applying. -/
def skipsEntry (dh : DectHandle) (ie : SfmtIE) (d : SfmtIEDesc) : Prop :=
  (dect_rx_status dh d = .IE_NONE ∧ d.type ≠ ie.id) ∨
  (dect_rx_status dh d = .IE_OPTIONAL ∧ d.type ≠ ie.id ∧
    ¬(d.type = DECT_IE_SINGLE_DISPLAY ∧ ie.id = DECT_IE_MULTI_DISPLAY) ∧
    ¬(d.type = DECT_IE_SINGLE_KEYPAD ∧ ie.id = DECT_IE_MULTI_KEYPAD))

instance (dh : DectHandle) (ie : SfmtIE) (d : SfmtIEDesc) :
    Decidable (skipsEntry dh ie d) := by
  unfold skipsEntry; infer_instance

/-- The matching loop of `dect_parse_sfmt_msg` stops at descriptor entry
`d` for the received IE (`goto found`): a MANDATORY entry of the same type,
or an OPTIONAL entry of the same type or reachable through the
display/keypad relaxation. -/
def matchesEntry (dh : DectHandle) (ie : SfmtIE) (d : SfmtIEDesc) : Prop :=
  (dect_rx_status dh d = .IE_MANDATORY ∧ d.type = ie.id) ∨
  (dect_rx_status dh d = .IE_OPTIONAL ∧ (d.type = ie.id ∨
    (d.type = DECT_IE_SINGLE_DISPLAY ∧ ie.id = DECT_IE_MULTI_DISPLAY) ∨
    (d.type = DECT_IE_SINGLE_KEYPAD ∧ ie.id = DECT_IE_MULTI_KEYPAD)))

instance (dh : DectHandle) (ie : SfmtIE) (d : SfmtIEDesc) :
    Decidable (matchesEntry dh ie d) := by
  unfold matchesEntry; infer_instance

/-- Cursor and slot-map effect of the matching loop skipping the entries of
`pre` in front of `suf`: each step advances the cursor and initialises the
slot of the next entry. -/
def dect_sfmt_skip_adv (suf : List SfmtIEDesc) :
    List SfmtIEDesc → ((Nat → Slot) × Nat) → ((Nat → Slot) × Nat)
  | [], st => st
  | d :: rest, st =>
    let pos' := dect_next_ie d st.2
    dect_sfmt_skip_adv suf rest
      (dect_msg_ie_init (rest ++ suf).head? pos' st.1, pos')

/- Walk lemmas about the descriptor-matching loop. -/

/-- Skipped entries commute out of the matching loop: when every entry of
`pre` is passed over for the received IE, locating in `pre ++ suf` equals
locating in `suf` from the advanced cursor and initialised slots. -/
theorem dect_sfmt_locate_skips (dh : DectHandle) (ie : SfmtIE)
    (suf : List SfmtIEDesc) :
    ∀ (pre : List SfmtIEDesc) (slots : Nat → Slot) (pos : Nat),
    (∀ d ∈ pre, skipsEntry dh ie d) →
    dect_sfmt_locate dh ie (pre ++ suf) slots pos =
      dect_sfmt_locate dh ie suf (dect_sfmt_skip_adv suf pre (slots, pos)).1
        (dect_sfmt_skip_adv suf pre (slots, pos)).2
  | [], slots, pos, _ => rfl
  | d :: rest, slots, pos, h => by
    have hd := h d (List.mem_cons_self d rest)
    have hrest : ∀ d' ∈ rest, skipsEntry dh ie d' :=
      fun d' hm => h d' (List.mem_cons_of_mem d hm)
    have ih := dect_sfmt_locate_skips dh ie suf rest
      (dect_msg_ie_init (rest ++ suf).head? (dect_next_ie d pos) slots)
      (dect_next_ie d pos) hrest
    rcases hd with ⟨hst, hne⟩ | ⟨hst, hne, hnd, hnk⟩
    · simpa [dect_sfmt_locate, dect_sfmt_skip_adv, hst, hne] using ih
    · have hcond : ¬(d.type = ie.id ∨
          (d.type = DECT_IE_SINGLE_DISPLAY ∧ ie.id = DECT_IE_MULTI_DISPLAY) ∨
          (d.type = DECT_IE_SINGLE_KEYPAD ∧ ie.id = DECT_IE_MULTI_KEYPAD)) := by
        push_neg
        exact ⟨hne, fun h1 h2 => (hnd ⟨h1, h2⟩).elim, fun h1 h2 => (hnk ⟨h1, h2⟩).elim⟩
      simpa [dect_sfmt_locate, dect_sfmt_skip_adv, hst, hcond] using ih

/-- The matching loop stops at a head entry the IE satisfies. -/
theorem dect_sfmt_locate_found (dh : DectHandle) (ie : SfmtIE) (d : SfmtIEDesc)
    (suf : List SfmtIEDesc) (slots : Nat → Slot) (pos : Nat)
    (h : matchesEntry dh ie d) :
    dect_sfmt_locate dh ie (d :: suf) slots pos = .found d suf slots pos := by
  rcases h with ⟨hst, hty⟩ | ⟨hst, hty⟩
  · simp [dect_sfmt_locate, hst, hty]
  · simp [dect_sfmt_locate, hst, hty]

/-- The out loop fails exactly when a remaining entry is mandatory for the
receive direction. -/
theorem dect_sfmt_msg_check_rest_missing (dh : DectHandle) :
    ∀ (descs : List SfmtIEDesc) (slots : Nat → Slot) (pos : Nat),
    (dect_sfmt_msg_check_rest dh descs slots pos = .error .mandatoryIeMissing ↔
      ∃ d ∈ descs, dect_rx_status dh d = .IE_MANDATORY)
  | [], slots, pos => by simp [dect_sfmt_msg_check_rest]
  | d :: rest, slots, pos => by
    by_cases h : dect_rx_status dh d = .IE_MANDATORY
    · simp [dect_sfmt_msg_check_rest, h]
    · simp only [dect_sfmt_msg_check_rest, if_neg h]
      rw [dect_sfmt_msg_check_rest_missing dh rest]
      simp [h]

/-- One step of the message parse loop when the matching loop fails: the
whole parse returns that error. -/
theorem dect_parse_sfmt_msg_go_fail (dh : DectHandle) (fuel : Nat)
    (descs : List SfmtIEDesc) (slots : Nat → Slot) (pos : Nat)
    (b : Nat) (bs : List Nat) (ie : SfmtIE) (e : SfmtError)
    (hie : dect_parse_sfmt_ie_header (b :: bs) = .ok ie)
    (hloc : dect_sfmt_locate dh ie descs slots pos = .fail e) :
    dect_parse_sfmt_msg_go dh (fuel + 1) descs slots pos (b :: bs) = .error e := by
  rw [dect_parse_sfmt_msg_go]
  simp [hie, hloc]

/- Claim C2: direction policing of dect_parse_sfmt_msg. -/

/--
C2 (confirmed): direction policing.  (1) An FP handle filters received IEs
by the PP-to-FP status field and a PP handle by the FP-to-PP field.
(2) A message whose next IE matches a descriptor entry with
direction-filtered status NONE (after the matching loop passes the entries
in front of it) is rejected.  (3) A message whose next IE mismatches a
MANDATORY entry is rejected with MANDATORY_IE_MISSING.  (4) At any point of
the walk, an exhausted buffer is rejected with MANDATORY_IE_MISSING exactly
when a remaining descriptor entry is MANDATORY for the receive direction.
-/
theorem C2_direction_policing :
    (∀ d : SfmtIEDesc, dect_rx_status FPhandle d = d.pp_fp ∧
      dect_rx_status PPhandle d = d.fp_pp) ∧
    (∀ (dh : DectHandle) (ie : SfmtIE) (pre : List SfmtIEDesc) (d : SfmtIEDesc)
      (suf : List SfmtIEDesc) (mb : List Nat),
      dect_parse_sfmt_ie_header mb = .ok ie →
      (∀ d' ∈ pre, skipsEntry dh ie d') →
      dect_rx_status dh d = .IE_NONE → d.type = ie.id →
      dect_parse_sfmt_msg dh (pre ++ d :: suf) mb = .error .parseError) ∧
    (∀ (dh : DectHandle) (ie : SfmtIE) (pre : List SfmtIEDesc) (d : SfmtIEDesc)
      (suf : List SfmtIEDesc) (mb : List Nat),
      dect_parse_sfmt_ie_header mb = .ok ie →
      (∀ d' ∈ pre, skipsEntry dh ie d') →
      dect_rx_status dh d = .IE_MANDATORY → d.type ≠ ie.id →
      dect_parse_sfmt_msg dh (pre ++ d :: suf) mb = .error .mandatoryIeMissing) ∧
    (∀ (dh : DectHandle) (fuel : Nat) (descs : List SfmtIEDesc)
      (slots : Nat → Slot) (pos : Nat),
      dect_parse_sfmt_msg_go dh fuel descs slots pos [] =
          .error .mandatoryIeMissing ↔
        ∃ d ∈ descs, dect_rx_status dh d = .IE_MANDATORY) := by
  refine ⟨fun d => ⟨rfl, rfl⟩, ?_, ?_, ?_⟩
  · intro dh ie pre d suf mb hie hpre hst hty
    cases mb with
    | nil => simp [dect_parse_sfmt_ie_header] at hie
    | cons b bs =>
      unfold dect_parse_sfmt_msg
      simp only [List.length_cons]
      refine dect_parse_sfmt_msg_go_fail dh bs.length _ _ 0 b bs ie _ hie ?_
      rw [dect_sfmt_locate_skips dh ie (d :: suf) pre _ 0 hpre]
      simp [dect_sfmt_locate, hst, hty]
  · intro dh ie pre d suf mb hie hpre hst hty
    cases mb with
    | nil => simp [dect_parse_sfmt_ie_header] at hie
    | cons b bs =>
      unfold dect_parse_sfmt_msg
      simp only [List.length_cons]
      refine dect_parse_sfmt_msg_go_fail dh bs.length _ _ 0 b bs ie _ hie ?_
      rw [dect_sfmt_locate_skips dh ie (d :: suf) pre _ 0 hpre]
      simp [dect_sfmt_locate, hst, hty]
  · intro dh fuel descs slots pos
    rw [dect_parse_sfmt_msg_go.eq_def]
    simpa using dect_sfmt_msg_check_rest_missing dh descs slots pos

/--
C2 witness: an FP receiving a LOCATE-ACCEPT that carries PORTABLE-IDENTITY
(status NONE in the PP-to-FP direction) rejects it; an FP receiving a
LOCATE-REQUEST whose first IE is LOCATION-AREA while PORTABLE-IDENTITY is
MANDATORY rejects with MANDATORY_IE_MISSING; an FP receiving an empty
LOCATE-REQUEST rejects with MANDATORY_IE_MISSING.
-/
theorem C2_direction_policing_witness :
    dect_parse_sfmt_msg FPhandle mm_locate_accept_msg_desc [0x05, 0x01, 0x80] =
      .error .parseError ∧
    dect_parse_sfmt_msg FPhandle mm_locate_request_msg_desc [0x07, 0x01, 0x24] =
      .error .mandatoryIeMissing ∧
    dect_parse_sfmt_msg FPhandle mm_locate_request_msg_desc [] =
      .error .mandatoryIeMissing :=
  ⟨C2_direction_policing.2.1 FPhandle ⟨0x05, 3, [0x05, 0x01, 0x80]⟩ []
      ⟨DECT_IE_PORTABLE_IDENTITY, .IE_MANDATORY, .IE_NONE, false⟩ _ _
      (by rfl) (by decide) (by rfl) (by rfl),
   C2_direction_policing.2.2.1 FPhandle ⟨0x07, 3, [0x07, 0x01, 0x24]⟩ []
      ⟨DECT_IE_PORTABLE_IDENTITY, .IE_NONE, .IE_MANDATORY, false⟩ _ _
      (by rfl) (by decide) (by rfl) (by decide),
   (C2_direction_policing.2.2.2 FPhandle 0 mm_locate_request_msg_desc _ 0).mpr
      (by decide)⟩

/-- One step of the message parse loop at a matched empty variable-length
IE: no handler runs, the cursor advances, parsing continues. -/
theorem dect_parse_sfmt_msg_go_found_empty (dh : DectHandle) (fuel : Nat)
    (descs : List SfmtIEDesc) (slots : Nat → Slot) (pos : Nat)
    (b : Nat) (bs : List Nat) (ie : SfmtIE) (d : SfmtIEDesc)
    (rest : List SfmtIEDesc) (slots' : Nat → Slot) (pos' : Nat)
    (hie : dect_parse_sfmt_ie_header (b :: bs) = .ok ie)
    (hloc : dect_sfmt_locate dh ie descs slots pos = .found d rest slots' pos')
    (hfix : ie.id &&& DECT_SFMT_IE_FIXED_LEN = 0) (hlen : ie.len = 2) :
    dect_parse_sfmt_msg_go dh (fuel + 1) descs slots pos (b :: bs) =
      dect_parse_sfmt_msg_go dh fuel rest
        (dect_msg_ie_init rest.head? (dect_next_ie d pos') slots')
        (dect_next_ie d pos') ((b :: bs).drop ie.len) := by
  rw [dect_parse_sfmt_msg_go]
  simp [hie, hloc, hfix, hlen]

/-- One step of the message parse loop at a matched non-empty IE: the IE is
parsed through the catalog; a handler failure on a MANDATORY entry aborts
with MANDATORY_IE_ERROR, otherwise the result (the parsed value, or NULL
after a failure) is stored and parsing continues. -/
theorem dect_parse_sfmt_msg_go_found_parse (dh : DectHandle) (fuel : Nat)
    (descs : List SfmtIEDesc) (slots : Nat → Slot) (pos : Nat)
    (b : Nat) (bs : List Nat) (ie : SfmtIE) (d : SfmtIEDesc)
    (rest : List SfmtIEDesc) (slots' : Nat → Slot) (pos' : Nat)
    (hie : dect_parse_sfmt_ie_header (b :: bs) = .ok ie)
    (hloc : dect_sfmt_locate dh ie descs slots pos = .found d rest slots' pos')
    (hne : ¬(ie.id &&& DECT_SFMT_IE_FIXED_LEN = 0 ∧ ie.len = 2)) :
    dect_parse_sfmt_msg_go dh (fuel + 1) descs slots pos (b :: bs) =
      (if (dect_parse_sfmt_ie dh (slots' pos') ie).1.isSome ∧
          dect_rx_status dh d = .IE_MANDATORY then
        .error .mandatoryIeError
      else
        dect_parse_sfmt_msg_go dh fuel rest
          (dect_msg_ie_init rest.head? (dect_next_ie d pos')
            (fun p => if p = pos' then (dect_parse_sfmt_ie dh (slots' pos') ie).2
              else slots' p))
          (dect_next_ie d pos') ((b :: bs).drop ie.len)) := by
  rw [dect_parse_sfmt_msg_go]
  simp [hie, hloc, hne]

/- Claim C8: empty variable-length IEs. -/

/--
C8 (confirmed): an inbound variable-length IE of total wire length 2
(header only) that the matching loop attributes to a descriptor entry is
treated as absent: no parse handler runs, the slot keeps the value the
walk initialised it with, the descriptor cursor advances past the entry
and parsing continues with the remaining buffer.  This holds whatever the
entry's status, MANDATORY included.
-/
theorem C8_empty_vl_ie (dh : DectHandle) (ie : SfmtIE) (pre : List SfmtIEDesc)
    (d : SfmtIEDesc) (suf : List SfmtIEDesc) (mb : List Nat)
    (hie : dect_parse_sfmt_ie_header mb = .ok ie)
    (hpre : ∀ d' ∈ pre, skipsEntry dh ie d')
    (hd : matchesEntry dh ie d)
    (hfix : ie.id &&& DECT_SFMT_IE_FIXED_LEN = 0) (hlen : ie.len = 2) :
    dect_parse_sfmt_msg dh (pre ++ d :: suf) mb =
      dect_parse_sfmt_msg_go dh (mb.length - 1) suf
        (dect_msg_ie_init suf.head?
          (dect_next_ie d (dect_sfmt_skip_adv (d :: suf) pre
            (dect_msg_ie_init (pre ++ d :: suf).head? 0 (fun _ => .uninit), 0)).2)
          (dect_sfmt_skip_adv (d :: suf) pre
            (dect_msg_ie_init (pre ++ d :: suf).head? 0 (fun _ => .uninit), 0)).1)
        (dect_next_ie d (dect_sfmt_skip_adv (d :: suf) pre
          (dect_msg_ie_init (pre ++ d :: suf).head? 0 (fun _ => .uninit), 0)).2)
        (mb.drop 2) := by
  cases mb with
  | nil => simp [dect_parse_sfmt_ie_header] at hie
  | cons b bs =>
    unfold dect_parse_sfmt_msg
    simp only [List.length_cons, Nat.add_sub_cancel]
    rw [dect_parse_sfmt_msg_go_found_empty dh bs.length _ _ 0 b bs ie d suf _ _ hie ?_ hfix hlen]
    · rw [hlen]
    · rw [dect_sfmt_locate_skips dh ie (d :: suf) pre _ 0 hpre]
      exact dect_sfmt_locate_found dh ie d suf _ _ hd

/--
C8 witness: an FP receiving an AUTHENTICATION-REPLY consisting of a single
empty RES IE (wire `[0x0d, 0x00]`, a MANDATORY entry): the parse succeeds
and the RES slot is left NULL.
-/
theorem C8_empty_vl_ie_witness :
    (dect_parse_sfmt_msg FPhandle mm_authentication_reply_msg_desc [0x0d, 0]).isOk
      = true ∧
    parsedSlotAt (dect_parse_sfmt_msg FPhandle mm_authentication_reply_msg_desc
      [0x0d, 0]) 0 = some .vacant := by
  have h := C8_empty_vl_ie FPhandle ⟨0x0d, 2, [0x0d, 0]⟩ []
    ⟨DECT_IE_RES, .IE_MANDATORY, .IE_MANDATORY, false⟩
    (mm_authentication_reply_msg_desc.drop 1) [0x0d, 0]
    (by rfl) (by decide) (by decide) (by rfl) (by rfl)
  rw [show ([] : List SfmtIEDesc) ++
      ⟨DECT_IE_RES, .IE_MANDATORY, .IE_MANDATORY, false⟩ ::
        mm_authentication_reply_msg_desc.drop 1 =
      mm_authentication_reply_msg_desc by rfl] at h
  rw [h]
  constructor <;> decide

/- Claim C3: handler failure on mandatory versus optional entries. -/

/--
C3 (confirmed): when the per-IE parse handler fails on a non-empty IE the
matching loop attributed to a descriptor entry, the outcome depends on the
direction-filtered status: on a MANDATORY entry the whole parse returns
MANDATORY_IE_ERROR; on an OPTIONAL entry the corrupt IE is dropped (the
slot is set to NULL by the failing `dect_parse_sfmt_ie`), the cursor
advances past the entry and parsing continues with the remaining buffer.
-/
theorem C3_corrupt_ie_handling :
    (∀ (dh : DectHandle) (ie : SfmtIE) (pre : List SfmtIEDesc) (d : SfmtIEDesc)
      (suf : List SfmtIEDesc) (mb : List Nat),
      dect_parse_sfmt_ie_header mb = .ok ie →
      (∀ d' ∈ pre, skipsEntry dh ie d') →
      dect_rx_status dh d = .IE_MANDATORY → d.type = ie.id →
      ¬(ie.id &&& DECT_SFMT_IE_FIXED_LEN = 0 ∧ ie.len = 2) →
      (dect_parse_sfmt_ie dh
        ((dect_sfmt_skip_adv (d :: suf) pre
          (dect_msg_ie_init (pre ++ d :: suf).head? 0 (fun _ => .uninit), 0)).1
          (dect_sfmt_skip_adv (d :: suf) pre
            (dect_msg_ie_init (pre ++ d :: suf).head? 0 (fun _ => .uninit), 0)).2)
        ie).1.isSome = true →
      dect_parse_sfmt_msg dh (pre ++ d :: suf) mb = .error .mandatoryIeError) ∧
    (∀ (dh : DectHandle) (ie : SfmtIE) (pre : List SfmtIEDesc) (d : SfmtIEDesc)
      (suf : List SfmtIEDesc) (mb : List Nat),
      dect_parse_sfmt_ie_header mb = .ok ie →
      (∀ d' ∈ pre, skipsEntry dh ie d') →
      dect_rx_status dh d = .IE_OPTIONAL →
      matchesEntry dh ie d →
      ¬(ie.id &&& DECT_SFMT_IE_FIXED_LEN = 0 ∧ ie.len = 2) →
      dect_parse_sfmt_msg dh (pre ++ d :: suf) mb =
        dect_parse_sfmt_msg_go dh (mb.length - 1) suf
          (dect_msg_ie_init suf.head?
            (dect_next_ie d (dect_sfmt_skip_adv (d :: suf) pre
              (dect_msg_ie_init (pre ++ d :: suf).head? 0 (fun _ => .uninit), 0)).2)
            (fun p => if p = (dect_sfmt_skip_adv (d :: suf) pre
                (dect_msg_ie_init (pre ++ d :: suf).head? 0 (fun _ => .uninit), 0)).2 then
              (dect_parse_sfmt_ie dh
                ((dect_sfmt_skip_adv (d :: suf) pre
                  (dect_msg_ie_init (pre ++ d :: suf).head? 0 (fun _ => .uninit), 0)).1
                  (dect_sfmt_skip_adv (d :: suf) pre
                    (dect_msg_ie_init (pre ++ d :: suf).head? 0 (fun _ => .uninit), 0)).2)
                ie).2
              else (dect_sfmt_skip_adv (d :: suf) pre
                (dect_msg_ie_init (pre ++ d :: suf).head? 0 (fun _ => .uninit), 0)).1 p))
          (dect_next_ie d (dect_sfmt_skip_adv (d :: suf) pre
            (dect_msg_ie_init (pre ++ d :: suf).head? 0 (fun _ => .uninit), 0)).2)
          (mb.drop ie.len)) ∧
    (∀ (dh : DectHandle) (s : Slot) (ie : SfmtIE),
      ((dect_ie_handlers ie.id).parse).isSome = true →
      (dect_parse_sfmt_ie dh s ie).1.isSome = true →
      (dect_parse_sfmt_ie dh s ie).2 = .vacant) := by
  refine ⟨?_, ?_, ?_⟩
  · intro dh ie pre d suf mb hie hpre hst hty hne hfail
    cases mb with
    | nil => simp [dect_parse_sfmt_ie_header] at hie
    | cons b bs =>
      unfold dect_parse_sfmt_msg
      simp only [List.length_cons]
      rw [dect_parse_sfmt_msg_go_found_parse dh bs.length _ _ 0 b bs ie d suf _ _ hie ?_ hne]
      · rw [if_pos ⟨hfail, hst⟩]
      · rw [dect_sfmt_locate_skips dh ie (d :: suf) pre _ 0 hpre]
        exact dect_sfmt_locate_found dh ie d suf _ _ (.inl ⟨hst, hty⟩)
  · intro dh ie pre d suf mb hie hpre hst hd hne
    cases mb with
    | nil => simp [dect_parse_sfmt_ie_header] at hie
    | cons b bs =>
      unfold dect_parse_sfmt_msg
      simp only [List.length_cons, Nat.add_sub_cancel]
      rw [dect_parse_sfmt_msg_go_found_parse dh bs.length _ _ 0 b bs ie d suf _ _ hie ?_ hne]
      · rw [if_neg]
        simp [hst]
      · rw [dect_sfmt_locate_skips dh ie (d :: suf) pre _ 0 hpre]
        exact dect_sfmt_locate_found dh ie d suf _ _ hd
  · intro dh s ie hhandler hfail
    obtain ⟨f, hf⟩ := Option.isSome_iff_exists.mp hhandler
    unfold dect_parse_sfmt_ie
    unfold dect_parse_sfmt_ie at hfail
    rw [hf] at hfail ⊢
    cases hfe : f ie s with
    | error e => simp [hfe]
    | ok s' => simp [hfe] at hfail

/--
C3 witness, both branches on real messages: an FP receiving an
AUTHENTICATION-REPLY whose RES IE has a one-octet payload (the handler
demands exactly four) fails with MANDATORY_IE_ERROR; a PP receiving a
CC-INFO carrying a valid SINGLE-DISPLAY and a 65-octet MULTI-KEYPAD (the
keypad handler rejects payloads beyond 64 octets, and the SINGLE-KEYPAD
entry is OPTIONAL) still delivers the message with the display populated
and the keypad absent.
-/
theorem C3_corrupt_ie_handling_witness :
    dect_parse_sfmt_msg FPhandle mm_authentication_reply_msg_desc [0x0d, 1, 0] =
      .error .mandatoryIeError ∧
    (dect_parse_sfmt_msg PPhandle cc_info_msg_desc
      (0x2c :: 65 :: List.replicate 65 7)).isOk = true ∧
    parsedSlotAt (dect_parse_sfmt_msg PPhandle cc_info_msg_desc
      ([0xe8, 0x41, 0x2c, 65] ++ List.replicate 65 7)) 4 =
      some (.ie (.display [0x41])) ∧
    parsedSlotAt (dect_parse_sfmt_msg PPhandle cc_info_msg_desc
      ([0xe8, 0x41, 0x2c, 65] ++ List.replicate 65 7)) 5 = some .vacant := by
  refine ⟨?_, ?_, by decide, by decide⟩
  · exact C3_corrupt_ie_handling.1 FPhandle ⟨0x0d, 3, [0x0d, 1, 0]⟩ []
      ⟨DECT_IE_RES, .IE_MANDATORY, .IE_MANDATORY, false⟩
      (mm_authentication_reply_msg_desc.drop 1) [0x0d, 1, 0]
      (by rfl) (by decide) (by rfl) (by rfl) (by decide) (by decide)
  · have h := C3_corrupt_ie_handling.2.1 PPhandle
      ⟨0x2c, 67, 0x2c :: 65 :: List.replicate 65 7⟩
      (cc_info_msg_desc.take 7)
      ⟨DECT_IE_SINGLE_KEYPAD, .IE_OPTIONAL, .IE_OPTIONAL, false⟩
      (cc_info_msg_desc.drop 8) (0x2c :: 65 :: List.replicate 65 7)
      (by rfl) (by decide) (by rfl) (by decide) (by decide)
    rw [show cc_info_msg_desc.take 7 ++
        (⟨DECT_IE_SINGLE_KEYPAD, .IE_OPTIONAL, .IE_OPTIONAL, false⟩ : SfmtIEDesc) ::
          cc_info_msg_desc.drop 8 = cc_info_msg_desc by rfl] at h
    rw [h]
    decide

/- Claim C7: repeat indicator framing. -/

/--
C7 (confirmed): when building a message, a repeat group (REPEAT-INDICATOR
entry followed by a REPEAT entry) whose in-line list holds exactly one
element serialises the element alone; with two or more elements the
REPEAT-INDICATOR is built first and precedes the elements on the wire; an
empty list emits nothing for the group.  The parser accepts both framings:
a PP accepts a CC-INFO whose PROGRESS-INDICATOR list arrives without an
indicator as well as one with a leading REPEAT-INDICATOR.
-/
theorem C7_repeat_indicator :
    (∀ (dh : DectHandle) (d ed : SfmtIEDesc) (suf : List SfmtIEDesc)
      (slots : Nat → Slot) (pos : Nat) (ty : Option Nat) (elems : List IEVal),
      d.type = DECT_IE_REPEAT_INDICATOR →
      slots pos = .ielist ty elems →
      ed.repeatFlag = true →
      ((∀ v, elems = [v] →
        dect_build_sfmt_msg_go dh (d :: ed :: suf) slots pos =
          match dect_build_sfmt_ie_dir dh ed v with
          | .error e => .error e
          | .ok b =>
            (dect_build_sfmt_msg_go dh suf slots (dect_next_ie d pos)).map
              (fun t => b ++ t)) ∧
      (2 ≤ elems.length →
        dect_build_sfmt_msg_go dh (d :: ed :: suf) slots pos =
          match dect_build_sfmt_ie_dir dh d (.repeatIndicator (ty.getD 0)) with
          | .error e => .error e
          | .ok ind =>
            match dect_foreach_ie_build dh ed elems with
            | .error e => .error e
            | .ok el =>
              (dect_build_sfmt_msg_go dh suf slots (dect_next_ie d pos)).map
                (fun t => ind ++ (el ++ t))) ∧
      (elems = [] →
        dect_build_sfmt_msg_go dh (d :: ed :: suf) slots pos =
          dect_build_sfmt_msg_go dh suf slots (dect_next_ie d pos)))) ∧
    (dect_parse_sfmt_msg PPhandle cc_info_msg_desc
      [0x1e, 2, 0x82, 0x84]).isOk = true ∧
    (dect_parse_sfmt_msg PPhandle cc_info_msg_desc
      [0xd1, 0x1e, 2, 0x82, 0x84, 0x1e, 2, 0x81, 0x88]).isOk = true := by
  refine ⟨?_, by decide, by decide⟩
  intro dh d ed suf slots pos ty elems hd hslot hrep
  refine ⟨?_, ?_, ?_⟩
  · intro v hv
    subst hv
    rw [dect_build_sfmt_msg_go]
    simp only [hd, if_pos rfl, hslot, hrep]
    cases hb : dect_build_sfmt_ie_dir dh ed v with
    | error e => simp [dect_foreach_ie_build, hb, dect_next_ie, hd]
    | ok b =>
      simp only [dect_foreach_ie_build, hb, dect_next_ie, hd, if_pos rfl]
      cases dect_build_sfmt_msg_go dh suf slots (pos + 1) <;>
        simp [Except.map]
  · intro h2
    obtain ⟨e0, etail, rfl, hne⟩ :
        ∃ e0 etail, elems = e0 :: etail ∧ etail ≠ [] := by
      match elems, h2 with
      | e0 :: e1 :: r, _ => exact ⟨e0, e1 :: r, rfl, by simp⟩
    rw [dect_build_sfmt_msg_go]
    simp only [hd, if_pos rfl, hslot, hrep]
    rw [if_pos hne]
    cases hi : dect_build_sfmt_ie_dir dh d (.repeatIndicator (ty.getD 0)) with
    | error e => simp [hi]
    | ok ind =>
      simp only [hi]
      cases hel : dect_foreach_ie_build dh ed (e0 :: etail) with
      | error e => simp [hel]
      | ok el =>
        simp only [hel, dect_next_ie, hd, if_pos rfl]
        cases dect_build_sfmt_msg_go dh suf slots (pos + 1) <;>
          simp [Except.map]
  · intro hv
    subst hv
    rw [dect_build_sfmt_msg_go]
    simp [hd, hslot, dect_next_ie]

/--
C7 witness: an FP building a CC-INFO whose progress-indicator list holds
one element emits the bare element; with two elements the wire starts with
the REPEAT-INDICATOR octet (0xd1, normal list) followed by both elements.
-/
theorem C7_repeat_indicator_witness :
    dect_build_sfmt_msg_go FPhandle (cc_info_msg_desc.drop 4)
      (fun p => if p = 3 then .ielist (some 1) [.progressIndicator 2 4] else .vacant) 3 =
      .ok [0x1e, 2, 0x82, 0x84] ∧
    dect_build_sfmt_msg_go FPhandle (cc_info_msg_desc.drop 4)
      (fun p => if p = 3 then
        .ielist (some 1) [.progressIndicator 2 4, .progressIndicator 1 8]
        else .vacant) 3 =
      .ok [0xd1, 0x1e, 2, 0x82, 0x84, 0x1e, 2, 0x81, 0x88] := by
  have h1 := ((C7_repeat_indicator.1 FPhandle
    ⟨DECT_IE_REPEAT_INDICATOR, .IE_OPTIONAL, .IE_OPTIONAL, false⟩
    ⟨DECT_IE_PROGRESS_INDICATOR, .IE_OPTIONAL, .IE_NONE, true⟩
    (cc_info_msg_desc.drop 6)
    (fun p => if p = 3 then .ielist (some 1) [.progressIndicator 2 4] else .vacant)
    3 (some 1) [.progressIndicator 2 4] rfl (by decide) rfl).1
    (.progressIndicator 2 4) rfl)
  have h2 := ((C7_repeat_indicator.1 FPhandle
    ⟨DECT_IE_REPEAT_INDICATOR, .IE_OPTIONAL, .IE_OPTIONAL, false⟩
    ⟨DECT_IE_PROGRESS_INDICATOR, .IE_OPTIONAL, .IE_NONE, true⟩
    (cc_info_msg_desc.drop 6)
    (fun p => if p = 3 then
      .ielist (some 1) [.progressIndicator 2 4, .progressIndicator 1 8]
      else .vacant)
    3 (some 1) [.progressIndicator 2 4, .progressIndicator 1 8] rfl (by decide) rfl).2.1
    (by decide))
  constructor
  · rw [show cc_info_msg_desc.drop 4 =
      (⟨DECT_IE_REPEAT_INDICATOR, .IE_OPTIONAL, .IE_OPTIONAL, false⟩ : SfmtIEDesc) ::
      (⟨DECT_IE_PROGRESS_INDICATOR, .IE_OPTIONAL, .IE_NONE, true⟩ : SfmtIEDesc) ::
      cc_info_msg_desc.drop 6 by rfl]
    rw [h1]
    rfl
  · rw [show cc_info_msg_desc.drop 4 =
      (⟨DECT_IE_REPEAT_INDICATOR, .IE_OPTIONAL, .IE_OPTIONAL, false⟩ : SfmtIEDesc) ::
      (⟨DECT_IE_PROGRESS_INDICATOR, .IE_OPTIONAL, .IE_NONE, true⟩ : SfmtIEDesc) ::
      cc_info_msg_desc.drop 6 by rfl]
    rw [h2]
    rfl

/-- Emitting a buffer of length `n + 2` splits off the two header octets. -/
theorem range_two_add_map (f : Nat → Nat) (n : Nat) :
    (List.range (n + 2)).map f = f 0 :: f 1 :: (List.range n).map (fun i => f (i + 2)) := by
  rw [show n + 2 = (n + 1) + 1 from rfl, List.range_succ_eq_map, List.range_succ_eq_map]
  simp [List.map_map, Function.comp]

/-- Reading a list back out of a byte store indexed by `List.getD`. -/
theorem map_getD_range (g : Nat → Nat) (l : List Nat) :
    (List.range l.length).map (fun i => g (l.getD i 0)) = l.map g := by
  induction l with
  | nil => rfl
  | cons a t ih =>
    rw [List.length_cons, List.range_succ_eq_map]
    simp only [List.map_cons, List.map_map, Function.comp_def, Nat.succ_eq_add_one,
      List.getD_cons_succ, List.getD_cons_zero]
    exact congrArg (List.cons (g a)) ih

/-- Building a MULTI-DISPLAY IE emits the variable-length framing with the
content bytes. -/
theorem build_multi_display_emit (dh : DectHandle) (info : List Nat)
    (h1 : 1 ≤ info.length) (h2 : info.length < 256) :
    dect_build_sfmt_ie dh DECT_IE_MULTI_DISPLAY (.display info) =
      .ok (DECT_IE_MULTI_DISPLAY :: info.length :: info.map (· % 256)) := by
  unfold dect_build_sfmt_ie
  simp +decide only [reduceIte]
  simp +decide only [dect_ie_handlers, reduceIte]
  simp only [dect_sfmt_build_multi_display, dect_build_sfmt_ie_header]
  simp +decide only [DECT_IE_MULTI_DISPLAY, DECT_SFMT_IE_FIXED_LEN,
    DECT_SFMT_IE_FIXED_ID_MASK, DECT_IE_DOUBLE_OCTET_ELEMENT, reduceIte]
  rw [if_neg (show ¬ info.length + 2 = 2 by omega)]
  rw [if_pos (show info.length + 2 > 2 by omega)]
  simp only [BuildBuf.emit, BuildBuf.set, BuildBuf.setLen, Except.ok.injEq]
  rw [range_two_add_map]
  rw [List.cons_eq_cons]
  refine ⟨by norm_num, ?_⟩
  rw [List.cons_eq_cons]
  refine ⟨by norm_num; omega, ?_⟩
  rw [← map_getD_range (fun x => x % 256) info]
  apply List.map_congr_left
  intro i hi
  have hi' : i < info.length := List.mem_range.mp hi
  have c1 : ¬ (i + 2 = 0) := by omega
  have c2 : ¬ (i + 2 = 1) := by omega
  have c3 : 2 ≤ i + 2 ∧ i + 2 < 2 + info.length := by omega
  simp only [if_neg c1, if_neg c2, if_pos c3, Nat.add_sub_cancel]

/-- Building a MULTI-KEYPAD IE emits the variable-length framing with the
content bytes. -/
theorem build_multi_keypad_emit (dh : DectHandle) (info : List Nat)
    (h1 : 1 ≤ info.length) (h2 : info.length < 256) :
    dect_build_sfmt_ie dh DECT_IE_MULTI_KEYPAD (.keypad info) =
      .ok (DECT_IE_MULTI_KEYPAD :: info.length :: info.map (· % 256)) := by
  unfold dect_build_sfmt_ie
  simp +decide only [reduceIte]
  simp +decide only [dect_ie_handlers, reduceIte]
  simp only [dect_sfmt_build_multi_keypad, dect_build_sfmt_ie_header]
  simp +decide only [DECT_IE_MULTI_KEYPAD, DECT_SFMT_IE_FIXED_LEN,
    DECT_SFMT_IE_FIXED_ID_MASK, DECT_IE_DOUBLE_OCTET_ELEMENT, reduceIte]
  rw [if_neg (show ¬ info.length + 2 = 2 by omega)]
  rw [if_pos (show info.length + 2 > 2 by omega)]
  simp only [BuildBuf.emit, BuildBuf.set, BuildBuf.setLen, Except.ok.injEq]
  rw [range_two_add_map]
  rw [List.cons_eq_cons]
  refine ⟨by norm_num, ?_⟩
  rw [List.cons_eq_cons]
  refine ⟨by norm_num; omega, ?_⟩
  rw [← map_getD_range (fun x => x % 256) info]
  apply List.map_congr_left
  intro i hi
  have hi' : i < info.length := List.mem_range.mp hi
  have c1 : ¬ (i + 2 = 0) := by omega
  have c2 : ¬ (i + 2 = 1) := by omega
  have c3 : 2 ≤ i + 2 ∧ i + 2 < 2 + info.length := by omega
  simp only [if_neg c1, if_neg c2, if_pos c3, Nat.add_sub_cancel]

/- Claim C9: single/multi display and keypad promotion when building. -/

/--
C9 (confirmed): `dect_build_sfmt_ie` on a SINGLE-DISPLAY slot emits the
MULTI-DISPLAY variable-length framing whenever the display content exceeds
one octet, and the fixed double-octet SINGLE-DISPLAY framing otherwise;
analogously a SINGLE-KEYPAD slot with more than one content octet is
emitted as MULTI-KEYPAD.
-/
theorem C9_display_keypad_promotion :
    (∀ (dh : DectHandle) (info : List Nat), 1 < info.length → info.length < 256 →
      dect_build_sfmt_ie dh DECT_IE_SINGLE_DISPLAY (.display info) =
        .ok (DECT_IE_MULTI_DISPLAY :: info.length :: info.map (· % 256))) ∧
    (∀ (dh : DectHandle) (info : List Nat), info.length ≤ 1 →
      dect_build_sfmt_ie dh DECT_IE_SINGLE_DISPLAY (.display info) =
        .ok [DECT_IE_SINGLE_DISPLAY, info.getD 0 0 % 256]) ∧
    (∀ (dh : DectHandle) (info : List Nat), 1 < info.length → info.length < 256 →
      dect_build_sfmt_ie dh DECT_IE_SINGLE_KEYPAD (.keypad info) =
        .ok (DECT_IE_MULTI_KEYPAD :: info.length :: info.map (· % 256))) ∧
    (∀ (dh : DectHandle) (info : List Nat), info.length ≤ 1 →
      dect_build_sfmt_ie dh DECT_IE_SINGLE_KEYPAD (.keypad info) =
        .ok [DECT_IE_SINGLE_KEYPAD, info.getD 0 0 % 256]) := by
  refine ⟨?_, ?_, ?_, ?_⟩
  · intro dh info h1 h2
    have hswitch : dect_build_sfmt_ie dh DECT_IE_SINGLE_DISPLAY (.display info) =
        dect_build_sfmt_ie dh DECT_IE_MULTI_DISPLAY (.display info) := by
      unfold dect_build_sfmt_ie
      simp only [if_pos rfl]
      rw [if_pos h1]
      simp +decide only [reduceIte]
    rw [hswitch]
    exact build_multi_display_emit dh info (by omega) h2
  · intro dh info h
    unfold dect_build_sfmt_ie
    simp only [if_pos rfl]
    rw [if_neg (show ¬ info.length > 1 by omega)]
    simp +decide only [dect_ie_handlers, reduceIte]
    simp only [dect_sfmt_build_single_display, dect_build_sfmt_ie_header]
    simp +decide only [DECT_IE_SINGLE_DISPLAY, DECT_SFMT_IE_FIXED_LEN,
      DECT_SFMT_IE_FIXED_ID_MASK, DECT_IE_DOUBLE_OCTET_ELEMENT, reduceIte]
    simp only [BuildBuf.emit, BuildBuf.set, BuildBuf.setLen, BuildBuf.orAt, BuildBuf.empty]
    norm_num [List.range_succ]
  · intro dh info h1 h2
    have hswitch : dect_build_sfmt_ie dh DECT_IE_SINGLE_KEYPAD (.keypad info) =
        dect_build_sfmt_ie dh DECT_IE_MULTI_KEYPAD (.keypad info) := by
      unfold dect_build_sfmt_ie
      rw [if_neg (show ¬ (DECT_IE_SINGLE_KEYPAD = DECT_IE_SINGLE_DISPLAY) by decide)]
      simp only [if_pos rfl]
      rw [if_pos h1]
      simp +decide only [reduceIte]
    rw [hswitch]
    exact build_multi_keypad_emit dh info (by omega) h2
  · intro dh info h
    unfold dect_build_sfmt_ie
    rw [if_neg (show ¬ (DECT_IE_SINGLE_KEYPAD = DECT_IE_SINGLE_DISPLAY) by decide)]
    simp only [if_pos rfl]
    rw [if_neg (show ¬ info.length > 1 by omega)]
    simp +decide only [dect_ie_handlers, reduceIte]
    simp only [dect_sfmt_build_single_keypad, dect_build_sfmt_ie_header]
    simp +decide only [DECT_IE_SINGLE_KEYPAD, DECT_SFMT_IE_FIXED_LEN,
      DECT_SFMT_IE_FIXED_ID_MASK, DECT_IE_DOUBLE_OCTET_ELEMENT, reduceIte]
    simp only [BuildBuf.emit, BuildBuf.set, BuildBuf.setLen, BuildBuf.orAt, BuildBuf.empty]
    norm_num [List.range_succ]

/-- C9 witness: a two-octet display on a SINGLE-DISPLAY slot is emitted as
MULTI-DISPLAY, a one-octet display stays SINGLE-DISPLAY; a three-octet
keypad is emitted as MULTI-KEYPAD, a one-octet keypad stays
SINGLE-KEYPAD. -/
theorem C9_display_keypad_promotion_witness :
    dect_build_sfmt_ie FPhandle DECT_IE_SINGLE_DISPLAY (.display [0x41, 0x42]) =
      .ok [0x28, 2, 0x41, 0x42] ∧
    dect_build_sfmt_ie FPhandle DECT_IE_SINGLE_DISPLAY (.display [0x41]) =
      .ok [0xe8, 0x41] ∧
    dect_build_sfmt_ie FPhandle DECT_IE_SINGLE_KEYPAD (.keypad [0x31, 0x32, 0x33]) =
      .ok [0x2c, 3, 0x31, 0x32, 0x33] ∧
    dect_build_sfmt_ie FPhandle DECT_IE_SINGLE_KEYPAD (.keypad [0x31]) =
      .ok [0xe9, 0x31] :=
  ⟨(C9_display_keypad_promotion.1 FPhandle [0x41, 0x42] (by decide) (by decide)).trans
      (by rfl),
   (C9_display_keypad_promotion.2.1 FPhandle [0x41] (by decide)).trans (by rfl),
   (C9_display_keypad_promotion.2.2.1 FPhandle [0x31, 0x32, 0x33] (by decide)
      (by decide)).trans (by rfl),
   (C9_display_keypad_promotion.2.2.2 FPhandle [0x31] (by decide)).trans (by rfl)⟩

/- Claim C10: empty variable-length IE bodies are never emitted. -/

/--
C10 (confirmed): whenever the build handler of a variable-length IE
produces a body of exactly the two header octets, `dect_build_sfmt_ie`
appends zero bytes and reports success, so an empty variable-length IE
never reaches the wire; a surrounding message build still succeeds, with
the empty IE simply omitted (witnessed at the message level by a
CC-SETUP-ACK whose INFO-TYPE list is empty).
-/
theorem C10_empty_vl_build :
    (∀ (dh : DectHandle) (id : Nat) (ie : IEVal)
      (f : IEVal → Except SfmtError BuildBuf) (buf : BuildBuf),
      id &&& DECT_SFMT_IE_FIXED_LEN = 0 →
      (dect_ie_handlers id).build = some f →
      f ie = .ok buf →
      buf.len = 2 →
      dect_build_sfmt_ie dh id ie = .ok []) ∧
    dect_build_sfmt_msg FPhandle cc_setup_ack_msg_desc
      (fun p => if p = 0 then .ie (.infoType []) else
        if p = 3 then .ie (.locationArea 1 2) else
        if p = 8 ∨ p = 9 ∨ p = 18 then .ielist none [] else .vacant) =
      .ok [0x07, 1, 0x42] := by
  constructor
  · intro dh id ie f buf hfix hf hfe hlen
    have hd1 : id ≠ DECT_IE_SINGLE_DISPLAY := by
      intro h; rw [h] at hfix; exact absurd hfix (by decide)
    have hd2 : id ≠ DECT_IE_SINGLE_KEYPAD := by
      intro h; rw [h] at hfix; exact absurd hfix (by decide)
    unfold dect_build_sfmt_ie
    simp only [if_neg hd1, if_neg hd2, hf, hfe]
    unfold dect_build_sfmt_ie_header
    rw [if_neg (show ¬ (id &&& DECT_SFMT_IE_FIXED_LEN ≠ 0) by simpa using hfix)]
    rw [if_pos hlen]
    simp [BuildBuf.emit, BuildBuf.setLen]
  · rfl

/-- C10 witness: the INFO-TYPE handler on an empty parameter list produces
a two-octet body, and the builder emits nothing for it. -/
theorem C10_empty_vl_build_witness :
    dect_build_sfmt_ie FPhandle DECT_IE_INFO_TYPE (.infoType []) = .ok [] :=
  C10_empty_vl_build.1 FPhandle DECT_IE_INFO_TYPE (.infoType [])
    dect_sfmt_build_info_type ((BuildBuf.empty.orAt 1 DECT_OCTET_GROUP_END).setLen 2)
    (by decide) (by rfl) (by rfl) (by rfl)

/- Claim C6: dect_mm_locate_res. -/

/--
C6 (corrected, counterexample): for an open MM LOCATE transaction and a
parameter collection without a reject reason, `dect_mm_locate_res` sends
LOCATE-ACCEPT but performs no transaction closure: the emitted effect list
contains no `closeTransaction` and the transaction stays open, refuting
the claim's "in both cases the transaction is closed afterwards".  The
reject branch behaves the same way.
-/
theorem C6_locate_res_no_close_cex :
    (dect_mm_locate_res FPhandle ⟨true⟩ ⟨none, none, none, none, none, none, none⟩ =
      (0, ⟨true⟩, [.sendMsg DECT_MM_LOCATE_ACCEPT])) ∧
    .closeTransaction ∉
      (dect_mm_locate_res FPhandle ⟨true⟩ ⟨none, none, none, none, none, none, none⟩).2.2 ∧
    (dect_mm_locate_res FPhandle ⟨true⟩ ⟨none, none, none, none, none, none, none⟩).2.1.transaction_open
      = true ∧
    .closeTransaction ∉
      (dect_mm_locate_res FPhandle ⟨true⟩
        ⟨none, none, none, none, none, none, some (.rejectReason 1)⟩).2.2 := by
  refine ⟨rfl, by decide, rfl, by decide⟩

/--
C6 (amended): `dect_mm_locate_res` sends LOCATE-REJECT exactly when
`param.reject_reason` is present and LOCATE-ACCEPT when it is absent, but
in both cases the transaction is left untouched: no close is emitted and
the transaction state is returned unchanged.
-/
theorem C6_locate_res_amended (dh : DectHandle) (mmta : DectMMTransaction)
    (param : DectMMLocateParam) :
    (param.reject_reason = none →
      dect_mm_locate_res dh mmta param = (0, mmta, [.sendMsg DECT_MM_LOCATE_ACCEPT])) ∧
    (param.reject_reason ≠ none →
      dect_mm_locate_res dh mmta param = (0, mmta, [.sendMsg DECT_MM_LOCATE_REJECT])) ∧
    (dect_mm_locate_res dh mmta param).2.1 = mmta ∧
    .closeTransaction ∉ (dect_mm_locate_res dh mmta param).2.2 := by
  unfold dect_mm_locate_res dect_mm_send_locate_accept dect_mm_send_locate_reject
  by_cases h : param.reject_reason = none <;> simp [h]

/-- C6 witness: the amended theorem applied to both concrete branches. -/
theorem C6_locate_res_amended_witness :
    dect_mm_locate_res PPhandle ⟨true⟩ ⟨none, none, none, none, none, none, none⟩ =
      (0, ⟨true⟩, [.sendMsg DECT_MM_LOCATE_ACCEPT]) ∧
    dect_mm_locate_res PPhandle ⟨true⟩
        ⟨none, none, none, none, none, none, some (.rejectReason 2)⟩ =
      (0, ⟨true⟩, [.sendMsg DECT_MM_LOCATE_REJECT]) :=
  ⟨(C6_locate_res_amended PPhandle ⟨true⟩ _).1 rfl,
   (C6_locate_res_amended PPhandle ⟨true⟩ _).2.1 (by decide)⟩

/- Claim C5: dect_cc_rcv_connect. -/

/--
C5 (corrected, counterexample): an FP call in CALL_PRESENT receives a valid
CC-CONNECT (the empty IE stream parses successfully); the handler delivers
MNCC-CONNECT-ind, yet the call state stays CALL_PRESENT instead of moving
to ACTIVE and the U-plane socket remains unconnected, refuting the claimed
state transition and U-plane binding.
-/
theorem C5_rcv_connect_cex :
    (dect_cc_rcv_connect FPhandle ⟨.DECT_CC_CALL_PRESENT, some true, false⟩ []).2 =
      [.mnccConnectInd] ∧
    (dect_cc_rcv_connect FPhandle ⟨.DECT_CC_CALL_PRESENT, some true, false⟩ []).1.state =
      .DECT_CC_CALL_PRESENT ∧
    (dect_cc_rcv_connect FPhandle ⟨.DECT_CC_CALL_PRESENT, some true, false⟩ []).1.state ≠
      .DECT_CC_ACTIVE ∧
    (dect_cc_rcv_connect FPhandle ⟨.DECT_CC_CALL_PRESENT, some true, false⟩ []).1.lu_sap =
      false := by
  decide

/--
C5 (amended): for every call and every CC-CONNECT message that parses
successfully, `dect_cc_rcv_connect` stops and frees the setup timer and
emits MNCC-CONNECT-ind, leaving the call state and the U-plane socket
exactly as they were (no transition to ACTIVE or CONNECT_PENDING, no
U-plane binding in the receive handler).
-/
theorem C5_rcv_connect_amended (dh : DectHandle) (call : DectCall) (mb : List Nat)
    (h : (dect_parse_sfmt_msg dh cc_connect_msg_desc mb).isOk = true) :
    dect_cc_rcv_connect dh call mb =
      ({ call with setup_timer := none }, [.mnccConnectInd]) := by
  obtain ⟨s, hs⟩ : ∃ s, dect_parse_sfmt_msg dh cc_connect_msg_desc mb = .ok s := by
    cases hp : dect_parse_sfmt_msg dh cc_connect_msg_desc mb with
    | ok s => exact ⟨s, rfl⟩
    | error e => rw [hp] at h; simp [Except.isOk, Except.toBool] at h
  unfold dect_cc_rcv_connect
  rw [hs]
  cases call with
  | mk st t lu => cases t <;> rfl

/-- C5 witness: the amended theorem at a PP call in CALL_PRESENT with an
armed setup timer and a valid (empty) CC-CONNECT IE stream. -/
theorem C5_rcv_connect_amended_witness :
    dect_cc_rcv_connect PPhandle ⟨.DECT_CC_CALL_PRESENT, some true, false⟩ [] =
      (⟨.DECT_CC_CALL_PRESENT, none, false⟩, [.mnccConnectInd]) :=
  C5_rcv_connect_amended PPhandle ⟨.DECT_CC_CALL_PRESENT, some true, false⟩ [] (by decide)

/- Claim C4: the CC setup timer. -/

/--
C4 (corrected, counterexample): a PP call in CALL_PRESENT with the setup
timer armed processes a valid CC-CALL-PROC — an inbound response to the
SETUP — yet the timer stays armed (the handler changes nothing), and a
subsequent expiry still runs the full timeout path, refuting "if any
inbound response to the SETUP is processed first, the setup timer is
stopped and never fires".
-/
theorem C4_setup_timer_cex :
    dect_cc_rcv_call_proc PPhandle ⟨.DECT_CC_CALL_PRESENT, some true, false⟩ [] =
      (⟨.DECT_CC_CALL_PRESENT, some true, false⟩, []) ∧
    (dect_cc_setup_timer PPhandle ⟨.DECT_CC_CALL_PRESENT, some true, false⟩).2 =
      [.mnccRejectInd true, .closeTransaction, .destroyCall] := by
  decide

/--
C4 (amended): a successful MNCC-SETUP-req moves the call to CALL_PRESENT
with the setup timer armed; on expiry exactly one MNCC-REJECT-ind with an
empty parameter collection is emitted, the transaction is closed and the
call destroyed.  A CC-ALERTING or CC-CONNECT that parses successfully
stops and frees the timer (so it can no longer fire), but other responses
to the SETUP such as CC-CALL-PROC leave timer and call untouched.
-/
theorem C4_setup_timer_amended :
    (∀ dh call, dect_mncc_setup_req dh call true true =
      (0, { call with state := .DECT_CC_CALL_PRESENT, setup_timer := some true },
        [.sendMsg CC_SETUP])) ∧
    (∀ dh call, dect_cc_setup_timer dh call =
      (none, [.mnccRejectInd true, .closeTransaction, .destroyCall])) ∧
    (∀ dh call mb, (dect_parse_sfmt_msg dh cc_alerting_msg_desc mb).isOk = true →
      (dect_cc_rcv_alerting dh call mb).1.setup_timer = none ∧
      (dect_cc_rcv_alerting dh call mb).1.state = .DECT_CC_CALL_RECEIVED ∧
      (dect_cc_rcv_alerting dh call mb).2 = [.mnccAlertInd]) ∧
    (∀ dh call mb, (dect_parse_sfmt_msg dh cc_connect_msg_desc mb).isOk = true →
      (dect_cc_rcv_connect dh call mb).1.setup_timer = none) ∧
    (∀ dh call mb, dect_cc_rcv_call_proc dh call mb = (call, [])) := by
  refine ⟨fun dh call => rfl, fun dh call => rfl, ?_, ?_, ?_⟩
  · intro dh call mb h
    obtain ⟨s, hs⟩ : ∃ s, dect_parse_sfmt_msg dh cc_alerting_msg_desc mb = .ok s := by
      cases hp : dect_parse_sfmt_msg dh cc_alerting_msg_desc mb with
      | ok s => exact ⟨s, rfl⟩
      | error e => rw [hp] at h; simp [Except.isOk, Except.toBool] at h
    unfold dect_cc_rcv_alerting
    rw [hs]
    cases call with
    | mk st t lu => cases t <;> exact ⟨rfl, rfl, rfl⟩
  · intro dh call mb h
    obtain ⟨s, hs⟩ : ∃ s, dect_parse_sfmt_msg dh cc_connect_msg_desc mb = .ok s := by
      cases hp : dect_parse_sfmt_msg dh cc_connect_msg_desc mb with
      | ok s => exact ⟨s, rfl⟩
      | error e => rw [hp] at h; simp [Except.isOk, Except.toBool] at h
    unfold dect_cc_rcv_connect
    rw [hs]
    cases call with
    | mk st t lu => cases t <;> rfl
  · intro dh call mb
    unfold dect_cc_rcv_call_proc
    cases dect_parse_sfmt_msg dh cc_call_proc_msg_desc mb <;> rfl

/-- C4 witness: the amended theorem at a PP call in CALL_PRESENT with an
armed timer and valid (empty) CC-ALERTING and CC-CONNECT IE streams. -/
theorem C4_setup_timer_amended_witness :
    (dect_cc_rcv_alerting PPhandle ⟨.DECT_CC_CALL_PRESENT, some true, false⟩ []).1.setup_timer
      = none ∧
    (dect_cc_rcv_connect PPhandle ⟨.DECT_CC_CALL_PRESENT, some true, false⟩ []).1.setup_timer
      = none :=
  ⟨(C4_setup_timer_amended.2.2.1 PPhandle ⟨.DECT_CC_CALL_PRESENT, some true, false⟩ []
      (by decide)).1,
   C4_setup_timer_amended.2.2.2.1 PPhandle ⟨.DECT_CC_CALL_PRESENT, some true, false⟩ []
      (by decide)⟩

/- Claim C1: round-trip of the codec. -/

/-- Header parse of a variable-length IE: for a leading octet with the
fixed-length bit clear and a buffer long enough for the announced payload,
`dect_parse_sfmt_ie_header` yields the wire identifier and the total
length (payload length plus the two header octets). -/
theorem parse_header_vl (b0 : Nat) (rest : List Nat)
    (hb : b0 &&& DECT_SFMT_IE_FIXED_LEN = 0)
    (hlen : 2 + rest.getD 0 0 ≤ (b0 :: rest).length) :
    dect_parse_sfmt_ie_header (b0 :: rest) =
      .ok ⟨b0, rest.getD 0 0 + 2, b0 :: rest⟩ := by
  unfold dect_parse_sfmt_ie_header
  simp only [hb]
  rw [if_neg (by decide)]
  have h2 : ¬ ((b0 :: rest).length < 2 ∨ (b0 :: rest).length < 2 + rest.getD 0 0) := by
    generalize rest.getD 0 0 = g at hlen ⊢
    simp only [List.length_cons] at hlen ⊢
    omega
  rw [if_neg h2]

set_option maxRecDepth 40000

/-- Round trip of the two accepted REPEAT-INDICATOR octets. -/
theorem rt_repeat_indicator :
    dect_sfmt_ie_roundtrip FPhandle .vacant [0xd1] = .ok [0xd1] ∧
    dect_sfmt_ie_roundtrip FPhandle .vacant [0xd2] = .ok [0xd2] := ⟨by rfl, by rfl⟩

/-- Round trip of every BASIC-SERVICE octet. -/
theorem rt_basic_service :
    ∀ b, b < 256 → dect_sfmt_ie_roundtrip FPhandle .vacant [0xe0, b] = .ok [0xe0, b] := by decide

/-- Round trip of every one-character SINGLE-DISPLAY IE. -/
theorem rt_single_display :
    ∀ c, c < 256 → dect_sfmt_ie_roundtrip FPhandle .vacant [0xe8, c] = .ok [0xe8, c] := by decide

/-- Round trip of every one-character SINGLE-KEYPAD IE. -/
theorem rt_single_keypad :
    ∀ c, c < 256 → dect_sfmt_ie_roundtrip FPhandle .vacant [0xe9, c] = .ok [0xe9, c] := by decide

/-- Round trip of every RELEASE-REASON octet. -/
theorem rt_release_reason :
    ∀ r, r < 256 → dect_sfmt_ie_roundtrip FPhandle .vacant [0xe2, r] = .ok [0xe2, r] := by decide

/-- Round trip of every SIGNAL octet. -/
theorem rt_signal :
    ∀ s, s < 256 → dect_sfmt_ie_roundtrip FPhandle .vacant [0xe4, s] = .ok [0xe4, s] := by decide

/-- Round trip of every one-octet REJECT-REASON IE. -/
theorem rt_reject_reason :
    ∀ r, r < 256 → dect_sfmt_ie_roundtrip FPhandle .vacant [0x60, 1, r] = .ok [0x60, 1, r] := by decide

/-- Round trip of every one-octet LOCATION-AREA IE. -/
theorem rt_location_area :
    ∀ b, b < 256 → dect_sfmt_ie_roundtrip FPhandle .vacant [0x07, 1, b] = .ok [0x07, 1, b] := by decide

/-- Round trip of every PROGRESS-INDICATOR IE whose two value octets carry
the group-end bit, as the build emits them. -/
theorem rt_progress_indicator :
    ∀ loc, loc < 16 → ∀ prog, prog < 128 →
      dect_sfmt_ie_roundtrip FPhandle .vacant [0x1e, 2, 0x80 + loc, 0x80 + prog] =
        .ok [0x1e, 2, 0x80 + loc, 0x80 + prog] := by decide

/-- Round trip of every MULTI-DISPLAY IE carrying between 1 and 64 octets. -/
theorem rt_multi_display (info : List Nat) (h1 : 1 ≤ info.length) (h64 : info.length ≤ 64)
    (hb : ∀ x ∈ info, x < 256) :
    dect_sfmt_ie_roundtrip FPhandle .vacant (0x28 :: info.length :: info) =
      .ok (0x28 :: info.length :: info) := by
  unfold dect_sfmt_ie_roundtrip
  rw [parse_header_vl 0x28 (info.length :: info) (by decide)
    (by simp only [List.getD_cons_zero, List.length_cons]; omega)]
  simp only [List.getD_cons_zero]
  unfold dect_parse_sfmt_ie
  simp +decide only [dect_ie_handlers, reduceIte]
  unfold allocParse dect_sfmt_parse_multi_display
  simp only [Nat.add_sub_cancel]
  rw [if_neg (show ¬ info.length > DECT_IE_DISPLAY_INFO_SIZE by
    simp only [DECT_IE_DISPLAY_INFO_SIZE]; omega)]
  simp only [List.drop_succ_cons, List.drop_zero, List.take_length, Except.map]
  rw [show (40 : Nat) = DECT_IE_MULTI_DISPLAY from rfl,
    build_multi_display_emit FPhandle info h1 (by omega)]
  have hmap : info.map (fun x => x % 256) = info := by
    conv_rhs => rw [show info = info.map id from (List.map_id info).symm]
    exact List.map_congr_left fun x hx => Nat.mod_eq_of_lt (hb x hx)
  rw [hmap]

/-- Round trip of every MULTI-KEYPAD IE carrying between 1 and 64 octets. -/
theorem rt_multi_keypad (info : List Nat) (h1 : 1 ≤ info.length) (h64 : info.length ≤ 64)
    (hb : ∀ x ∈ info, x < 256) :
    dect_sfmt_ie_roundtrip FPhandle .vacant (0x2c :: info.length :: info) =
      .ok (0x2c :: info.length :: info) := by
  unfold dect_sfmt_ie_roundtrip
  rw [parse_header_vl 0x2c (info.length :: info) (by decide)
    (by simp only [List.getD_cons_zero, List.length_cons]; omega)]
  simp only [List.getD_cons_zero]
  unfold dect_parse_sfmt_ie
  simp +decide only [dect_ie_handlers, reduceIte]
  unfold allocParse dect_sfmt_parse_multi_keypad
  simp only [Nat.add_sub_cancel]
  rw [if_neg (show ¬ info.length > DECT_IE_DISPLAY_INFO_SIZE by
    simp only [DECT_IE_DISPLAY_INFO_SIZE]; omega)]
  simp only [List.drop_succ_cons, List.drop_zero, List.take_length, Except.map]
  rw [show (44 : Nat) = DECT_IE_MULTI_KEYPAD from rfl,
    build_multi_keypad_emit FPhandle info h1 (by omega)]
  have hmap : info.map (fun x => x % 256) = info := by
    conv_rhs => rw [show info = info.map id from (List.map_id info).symm]
    exact List.map_congr_left fun x hx => Nat.mod_eq_of_lt (hb x hx)
  rw [hmap]

/-- Round trip of every four-octet RES IE. -/
theorem rt_auth_res (a b c d : Nat) (ha : a < 256) (hb2 : b < 256) (hc : c < 256)
    (hd : d < 256) :
    dect_sfmt_ie_roundtrip FPhandle .vacant [0x0d, 4, a, b, c, d] =
      .ok [0x0d, 4, a, b, c, d] := by
  unfold dect_sfmt_ie_roundtrip
  rw [parse_header_vl 0x0d [4, a, b, c, d] (by decide) (by simp)]
  simp only [List.getD_cons_zero]
  unfold dect_parse_sfmt_ie
  simp +decide only [dect_ie_handlers, reduceIte]
  unfold allocParse dect_sfmt_parse_auth_res
  simp only [if_neg (show ¬ (4 + 2 ≠ 4 + 2) by omega), SfmtIE.at, Except.map,
    List.getD_cons_succ, List.getD_cons_zero]
  unfold dect_build_sfmt_ie
  simp +decide only [reduceIte]
  simp +decide only [dect_ie_handlers, reduceIte]
  unfold dect_sfmt_build_auth_res dect_build_sfmt_ie_header
  simp +decide only [reduceIte]
  simp only [BuildBuf.setLen, BuildBuf.set, BuildBuf.empty]
  rw [if_neg (by omega), if_pos (by omega)]
  simp only [BuildBuf.emit]
  norm_num [List.range_succ]
  omega

/--
C1 counterexample: the message-level round trip is not the identity on
every message that passes validation.  The two-octet wire message
`[0x60, 0x00]` is a REJECT-REASON IE with an empty payload; an FP parsing
it as an MM-TEMPORARY-IDENTITY-ASSIGN-REJECT accepts it (the empty
variable-length IE is skipped, its slot stays NULL), but the rebuild of
the parse result emits no bytes at all, so build(parse(m)) = [] which
differs from m.
-/
theorem C1_roundtrip_cex :
    (dect_parse_sfmt_msg FPhandle mm_temporary_identity_assign_rej_msg_desc
      [0x60, 0]).isOk = true ∧
    dect_sfmt_msg_roundtrip FPhandle FPhandle mm_temporary_identity_assign_rej_msg_desc
      [0x60, 0] = .ok [] ∧
    (Except.ok [] : Except SfmtError (List Nat)) ≠ .ok [0x60, 0] :=
  ⟨by rfl, by rfl, by simp⟩

/--
C1 (corrected): the IE-level half of the round-trip claim holds — for
every IE type of the modelled subset that has both a parse and a build
handler, and every legitimately encoded sample of it, building the parse
result reproduces the input bytes exactly: both REPEAT-INDICATOR octets,
all BASIC-SERVICE, SINGLE-DISPLAY, SINGLE-KEYPAD, RELEASE-REASON and
SIGNAL octets, all one-octet REJECT-REASON and LOCATION-AREA payloads,
all PROGRESS-INDICATOR values in canonical form, all MULTI-DISPLAY and
MULTI-KEYPAD payloads of 1 to 64 octets, and all four-octet RES values.
The message-level half is false: a validated message may contain an empty
variable-length IE, which the rebuild drops (see the counterexample), so
build(parse(m)) = m only holds for messages without empty
variable-length IEs.
-/
theorem C1_roundtrip_amended :
    (dect_sfmt_ie_roundtrip FPhandle .vacant [0xd1] = .ok [0xd1] ∧
     dect_sfmt_ie_roundtrip FPhandle .vacant [0xd2] = .ok [0xd2]) ∧
    (∀ b, b < 256 →
      dect_sfmt_ie_roundtrip FPhandle .vacant [0xe0, b] = .ok [0xe0, b]) ∧
    (∀ c, c < 256 →
      dect_sfmt_ie_roundtrip FPhandle .vacant [0xe8, c] = .ok [0xe8, c]) ∧
    (∀ c, c < 256 →
      dect_sfmt_ie_roundtrip FPhandle .vacant [0xe9, c] = .ok [0xe9, c]) ∧
    (∀ r, r < 256 →
      dect_sfmt_ie_roundtrip FPhandle .vacant [0xe2, r] = .ok [0xe2, r]) ∧
    (∀ s, s < 256 →
      dect_sfmt_ie_roundtrip FPhandle .vacant [0xe4, s] = .ok [0xe4, s]) ∧
    (∀ r, r < 256 →
      dect_sfmt_ie_roundtrip FPhandle .vacant [0x60, 1, r] = .ok [0x60, 1, r]) ∧
    (∀ b, b < 256 →
      dect_sfmt_ie_roundtrip FPhandle .vacant [0x07, 1, b] = .ok [0x07, 1, b]) ∧
    (∀ loc, loc < 16 → ∀ prog, prog < 128 →
      dect_sfmt_ie_roundtrip FPhandle .vacant [0x1e, 2, 0x80 + loc, 0x80 + prog] =
        .ok [0x1e, 2, 0x80 + loc, 0x80 + prog]) ∧
    (∀ info : List Nat, 1 ≤ info.length → info.length ≤ 64 → (∀ x ∈ info, x < 256) →
      dect_sfmt_ie_roundtrip FPhandle .vacant (0x28 :: info.length :: info) =
        .ok (0x28 :: info.length :: info)) ∧
    (∀ info : List Nat, 1 ≤ info.length → info.length ≤ 64 → (∀ x ∈ info, x < 256) →
      dect_sfmt_ie_roundtrip FPhandle .vacant (0x2c :: info.length :: info) =
        .ok (0x2c :: info.length :: info)) ∧
    (∀ a b c d, a < 256 → b < 256 → c < 256 → d < 256 →
      dect_sfmt_ie_roundtrip FPhandle .vacant [0x0d, 4, a, b, c, d] =
        .ok [0x0d, 4, a, b, c, d]) :=
  ⟨rt_repeat_indicator, rt_basic_service, rt_single_display, rt_single_keypad,
   rt_release_reason, rt_signal, rt_reject_reason, rt_location_area,
   rt_progress_indicator,
   fun info h1 h64 hb => rt_multi_display info h1 h64 hb,
   fun info h1 h64 hb => rt_multi_keypad info h1 h64 hb,
   fun a b c d ha hb hc hd => rt_auth_res a b c d ha hb hc hd⟩

/-- C1 witness: the amended theorem at three concrete samples — the
BASIC-SERVICE octet 0x23, a three-octet MULTI-DISPLAY and a RES IE. -/
theorem C1_roundtrip_amended_witness :
    dect_sfmt_ie_roundtrip FPhandle .vacant [0xe0, 0x23] = .ok [0xe0, 0x23] ∧
    dect_sfmt_ie_roundtrip FPhandle .vacant [0x28, 3, 65, 66, 67] =
      .ok [0x28, 3, 65, 66, 67] ∧
    dect_sfmt_ie_roundtrip FPhandle .vacant [0x0d, 4, 1, 2, 3, 4] =
      .ok [0x0d, 4, 1, 2, 3, 4] :=
  ⟨C1_roundtrip_amended.2.1 0x23 (by decide),
   C1_roundtrip_amended.2.2.2.2.2.2.2.2.2.1 [65, 66, 67] (by decide) (by decide)
     (by decide),
   C1_roundtrip_amended.2.2.2.2.2.2.2.2.2.2.2 1 2 3 4 (by decide) (by decide)
     (by decide) (by decide)⟩

end Libdect
